import Mathlib

/-!
# Landing page configuration: merge, dotted-path access and page binding

A shallow embedding of `landing_pages/assets/js/landing-config.js`.

JavaScript values are embedded as the inductive type `JSVal`: the primitive
values, mappings, lists and arrow functions that a page configuration is made
of.  An object is the sequence of its own enumerable data properties, in
definition order; strings are indexed and measured in UTF-16 code units.  Member
access follows the prototype chain: a name that a value does not own and that
its built-in prototype defines reads a built-in object of the host.  The names
of those members are part of the model; the built-in objects themselves are not,
and an operation that would need one ends in the outcome `unsupported`.
Operations that can throw return in `Except`; the page (style variables,
`querySelector`, the click event) is modelled by explicit state.
-/

namespace LandingConfig

/-! ## Values -/

/-- JavaScript values that occur in a page configuration.  Numbers are the
integers.  A string is a sequence of UTF-16 code units: `str` holds a
well-formed string, `surrogate` is the one-unit string made of a lone surrogate
code unit (what indexing into a character outside the basic plane gives).  `arr`
is a list as a literal writes it; `listObj` is a list given by its `length` and
its own properties (the indices that are present and any named property), which
is what a list becomes once a property is written to it.  `fn` is an arrow
function, known by its name and its number of parameters; `fnObj` is such a
function with the properties that were added to it. -/
inductive JSVal where
  | undefined : JSVal
  | null : JSVal
  | bool (b : Bool) : JSVal
  | num (n : Int) : JSVal
  | str (s : String) : JSVal
  | arr (items : List JSVal) : JSVal
  | obj (fields : List (String × JSVal)) : JSVal
  | fn (name : String) (arity : Nat) : JSVal
  | surrogate (unit : Nat) : JSVal
  | listObj (length : Nat) (props : List (String × JSVal)) : JSVal
  | fnObj (name : String) (arity : Nat) (props : List (String × JSVal)) : JSVal

/-- The own data properties of an object, in definition order.  As in an object
literal, a key may be defined more than once and the last definition wins. -/
abbrev Fields := List (String × JSVal)

/-- How a modelled operation can fail.  `typeError`, `rangeError` and
`syntaxError` are exceptions the code throws.  `unsupported` is not an outcome of the code: it
marks an operation that leaves the modelled fragment (it reads a built-in object
of the host, changes a prototype, or converts a string or an object with its own
conversion methods to a number). -/
inductive JSErr where
  | typeError : JSErr
  | rangeError : JSErr
  | syntaxError : JSErr
  | unsupported : JSErr
  deriving DecidableEq

open JSVal

/-- Test for `undefined` and `null`. -/
def JSVal.isNullish : JSVal → Bool
  | .undefined => true
  | .null => true
  | _ => false

/-- Test for `null`. -/
def JSVal.isNull : JSVal → Bool
  | .null => true
  | _ => false

/-- Test for an object in the sense of the language: a mapping, a list or a
function. -/
def JSVal.isObject : JSVal → Bool
  | .obj _ => true
  | .arr _ => true
  | .listObj _ _ => true
  | .fn _ _ => true
  | .fnObj _ _ _ => true
  | _ => false

/-- JavaScript truthiness (`ToBoolean`). -/
def JSVal.truthy : JSVal → Bool
  | .undefined => false
  | .null => false
  | .bool b => b
  | .num n => n != 0
  | .str s => s != ""
  | .arr _ => true
  | .obj _ => true
  | .fn _ _ => true
  | .surrogate _ => true
  | .listObj _ _ => true
  | .fnObj _ _ _ => true

/-! ## Property tables -/

/-- Value of key `k` in a property sequence: the last definition of `k`. -/
def lookup (k : String) : Fields → Option JSVal
  | [] => none
  | (k', v) :: rest =>
    match lookup k rest with
    | some x => some x
    | none => if k' = k then some v else none

/-- Keys of a property sequence. -/
def keysOf (fs : Fields) : List String := fs.map Prod.fst

/-- Property definition `o[k] = v` on a property table: an existing key keeps its
place and takes the new value, a new key is added at the end.  (The language
enumerates integer-like keys first, in ascending order; the order in which keys
are enumerated is not observed by anything modelled here.) -/
def assign (fs : Fields) (k : String) (v : JSVal) : Fields :=
  if k ∈ keysOf fs then fs.map (fun p => if p.1 = k then (p.1, v) else p)
  else fs ++ [(k, v)]

/-- Evaluation of an object literal whose property definitions (spread members
and explicit keys, in source order) are `entries`. -/
def objLit (entries : Fields) : Fields :=
  entries.foldl (fun acc p => assign acc p.1 p.2) []

/-- Index keys `"i"`, `"i+1"`, ... paired with the given items. -/
def indexedFrom : Nat → List JSVal → Fields
  | _, [] => []
  | i, x :: xs => (toString i, x) :: indexedFrom (i + 1) xs

/-- The one-unit strings of a string, one for each of its UTF-16 code units: a
character of the basic plane is one unit, any other character is a pair of
surrogate units. -/
def utf16Items (s : String) : List JSVal :=
  s.data.flatMap (fun c =>
    if c.toNat < 65536 then [JSVal.str (String.mk [c])]
    else [JSVal.surrogate (55296 + (c.toNat - 65536) / 1024),
          JSVal.surrogate (56320 + (c.toNat - 65536) % 1024)])

/-- Own enumerable string-keyed properties of a value, as copied by the spread
`...v` in an object literal: the fields of a mapping, the indexed items of a
list and its named properties, the indexed code units of a string, the
properties added to a function, and nothing for any other value (in particular
nothing for `undefined` and `null`). -/
def ownEnum : JSVal → Fields
  | .obj fs => fs
  | .arr xs => indexedFrom 0 xs
  | .str s => indexedFrom 0 (utf16Items s)
  | .surrogate u => [("0", .surrogate u)]
  | .listObj _ ps => ps
  | .fnObj _ _ ps => ps
  | _ => []

/-- Whether `k` is an own property of the value `v`: a key of a mapping, an
index or `length` of a list or of a string, a named property of a list, `length`
or `name` of a function, a property added to a function. -/
def hasOwn (v : JSVal) (k : String) : Bool :=
  match v with
  | .obj fs => decide (k ∈ keysOf fs)
  | .arr xs => decide (k = "length") || decide (k ∈ keysOf (ownEnum (.arr xs)))
  | .str s => decide (k = "length") || decide (k ∈ keysOf (ownEnum (.str s)))
  | .surrogate _ => decide (k = "length") || decide (k = "0")
  | .listObj _ ps => decide (k = "length") || decide (k ∈ keysOf ps)
  | .fn _ _ => decide (k = "length") || decide (k = "name")
  | .fnObj _ _ ps => decide (k = "length") || decide (k = "name") || decide (k ∈ keysOf ps)
  | _ => false

/-- The value of the own property `k` of `v`, and `undefined` when `v` has no
own property `k`. -/
def readProp (v : JSVal) (k : String) : JSVal :=
  match v with
  | .obj fs => (lookup k fs).getD .undefined
  | .arr xs =>
    if k = "length" then .num xs.length else (lookup k (ownEnum (.arr xs))).getD .undefined
  | .str s =>
    if k = "length" then .num (utf16Items s).length
    else (lookup k (ownEnum (.str s))).getD .undefined
  | .surrogate u =>
    if k = "length" then .num 1 else if k = "0" then .surrogate u else .undefined
  | .listObj n ps =>
    if k = "length" then .num n else (lookup k ps).getD .undefined
  | .fn name arity =>
    if k = "length" then .num arity else if k = "name" then .str name else .undefined
  | .fnObj name arity ps =>
    if k = "length" then .num arity else if k = "name" then .str name
    else (lookup k ps).getD .undefined
  | _ => .undefined

/-! ## Built-in prototypes

The string-keyed members of the built-in prototype objects, as ECMAScript 2025
(ECMA-262, 16th edition, Annex B included) lists them. -/

/-- Members of `Object.prototype`, which every object and every primitive
value other than `undefined` and `null` inherits. -/
def objectProtoNames : List String :=
  ["constructor", "hasOwnProperty", "isPrototypeOf", "propertyIsEnumerable",
   "toLocaleString", "toString", "valueOf", "__proto__", "__defineGetter__",
   "__defineSetter__", "__lookupGetter__", "__lookupSetter__"]

/-- Members of `String.prototype`. -/
def stringProtoNames : List String :=
  ["at", "charAt", "charCodeAt", "codePointAt", "concat", "constructor", "endsWith",
   "includes", "indexOf", "isWellFormed", "lastIndexOf", "localeCompare", "match",
   "matchAll", "normalize", "padEnd", "padStart", "repeat", "replace", "replaceAll",
   "search", "slice", "split", "startsWith", "substring", "toLocaleLowerCase",
   "toLocaleUpperCase", "toLowerCase", "toString", "toUpperCase", "toWellFormed", "trim",
   "trimEnd", "trimStart", "valueOf", "substr", "anchor", "big", "blink", "bold", "fixed",
   "fontcolor", "fontsize", "italics", "link", "small", "strike", "sub", "sup", "trimLeft",
   "trimRight", "length"]

/-- Members of `Array.prototype`. -/
def arrayProtoNames : List String :=
  ["at", "concat", "constructor", "copyWithin", "entries", "every", "fill", "filter",
   "find", "findIndex", "findLast", "findLastIndex", "flat", "flatMap", "forEach",
   "includes", "indexOf", "join", "keys", "lastIndexOf", "map", "pop", "push", "reduce",
   "reduceRight", "reverse", "shift", "slice", "some", "sort", "splice", "toLocaleString",
   "toReversed", "toSorted", "toSpliced", "toString", "unshift", "values", "with", "length"]

/-- Members of `Number.prototype`. -/
def numberProtoNames : List String :=
  ["constructor", "toExponential", "toFixed", "toLocaleString", "toPrecision", "toString",
   "valueOf"]

/-- Members of `Boolean.prototype`. -/
def booleanProtoNames : List String :=
  ["constructor", "toString", "valueOf"]

/-- Members of `Function.prototype`; `caller` and `arguments` are accessors
whose getter and setter always throw a `TypeError`. -/
def functionProtoNames : List String :=
  ["apply", "bind", "call", "constructor", "toString", "length", "name", "caller",
   "arguments"]

/-- Every name that some built-in prototype defines. -/
def allProtoNames : List String :=
  objectProtoNames ++ stringProtoNames ++ arrayProtoNames ++ numberProtoNames ++
    booleanProtoNames ++ functionProtoNames

/-- The names that the value `v` finds on its prototype chain. -/
def inheritedNames : JSVal → List String
  | .undefined => []
  | .null => []
  | .bool _ => booleanProtoNames ++ objectProtoNames
  | .num _ => numberProtoNames ++ objectProtoNames
  | .str _ => stringProtoNames ++ objectProtoNames
  | .surrogate _ => stringProtoNames ++ objectProtoNames
  | .arr _ => arrayProtoNames ++ objectProtoNames
  | .listObj _ _ => arrayProtoNames ++ objectProtoNames
  | .obj _ => objectProtoNames
  | .fn _ _ => functionProtoNames ++ objectProtoNames
  | .fnObj _ _ _ => functionProtoNames ++ objectProtoNames

/-- Whether `v` is a function. -/
def JSVal.isFn : JSVal → Bool
  | .fn _ _ => true
  | .fnObj _ _ _ => true
  | _ => false

/-- Whether `v` is a list. -/
def JSVal.isList : JSVal → Bool
  | .arr _ => true
  | .listObj _ _ => true
  | _ => false

/-- Member access `v.k` / `v[k]`: a `TypeError` on `undefined` and `null`; an own
property gives its value; a name found on the prototype chain gives a built-in
object of the host, which is outside the model, except that the inherited
accessors `caller` and `arguments` of a function throw a `TypeError`; any
other name gives `undefined`. -/
def getProp (v : JSVal) (k : String) : Except JSErr JSVal :=
  if v.isNullish then .error .typeError
  else if hasOwn v k then .ok (readProp v k)
  else if k ∈ inheritedNames v then
    (if v.isFn ∧ (k = "caller" ∨ k = "arguments") then .error .typeError
     else .error .unsupported)
  else .ok .undefined

/-- Optional chaining `v?.k` / `v?.[k]`. -/
def optGet (v : JSVal) (k : String) : Except JSErr JSVal :=
  if v.isNullish then .ok .undefined else getProp v k

/-- Nullish coalescing `a ?? b`. -/
def coalesce (a b : JSVal) : JSVal :=
  if a.isNullish then b else a

/-- Logical or `a || b`. -/
def jsOr (a b : JSVal) : JSVal :=
  if a.truthy then a else b

/-! ## Configuration loader -/

/-- The method `mergeConfig(base, custom)` of `LandingPageConfig`. -/
def mergeConfig (base custom : JSVal) : Except JSErr JSVal := do
  let bBrand ← getProp base "brand"
  let cBrand ← getProp custom "brand"
  let bTheme ← getProp base "theme"
  let cTheme ← getProp custom "theme"
  let bNavigation ← getProp base "navigation"
  let cNavigation ← getProp custom "navigation"
  let bHero ← getProp base "hero"
  let cHero ← getProp custom "hero"
  let bHeroTitle ← getProp bHero "title"
  let cHeroTitle ← optGet cHero "title"
  let bHeroBadge ← getProp bHero "badge"
  let cHeroBadge ← optGet cHero "badge"
  let bFeatures ← getProp base "features"
  let cFeatures ← getProp custom "features"
  let bHowItWorks ← getProp base "howItWorks"
  let cHowItWorks ← getProp custom "howItWorks"
  let bCta ← getProp base "cta"
  let cCta ← getProp custom "cta"
  let bCtaForm ← getProp bCta "form"
  let cCtaForm ← optGet cCta "form"
  let bFooter ← getProp base "footer"
  let cFooter ← getProp custom "footer"
  let bMeta ← getProp base "meta"
  let cMeta ← getProp custom "meta"
  let bForms ← getProp base "forms"
  let cForms ← getProp custom "forms"
  return .obj (objLit (ownEnum base ++ ownEnum custom ++ [
    ("brand", .obj (objLit (ownEnum bBrand ++ ownEnum cBrand))),
    ("theme", .obj (objLit (ownEnum bTheme ++ ownEnum cTheme))),
    ("navigation", .obj (objLit (ownEnum bNavigation ++ ownEnum cNavigation))),
    ("hero", .obj (objLit (ownEnum bHero ++ ownEnum cHero ++ [
      ("title", .obj (objLit (ownEnum bHeroTitle ++ ownEnum cHeroTitle))),
      ("badge", .obj (objLit (ownEnum bHeroBadge ++ ownEnum cHeroBadge)))]))),
    ("features", .obj (objLit (ownEnum bFeatures ++ ownEnum cFeatures))),
    ("howItWorks", .obj (objLit (ownEnum bHowItWorks ++ ownEnum cHowItWorks))),
    ("cta", .obj (objLit (ownEnum bCta ++ ownEnum cCta ++ [
      ("form", .obj (objLit (ownEnum bCtaForm ++ ownEnum cCtaForm)))]))),
    ("footer", .obj (objLit (ownEnum bFooter ++ ownEnum cFooter))),
    ("meta", .obj (objLit (ownEnum bMeta ++ ownEnum cMeta))),
    ("forms", .obj (objLit (ownEnum bForms ++ ownEnum cForms)))]))

/-! ## Default and page-specific configurations -/

/-- The constant `defaultConfig`. -/
def defaultConfig : JSVal :=
  .obj [
    ("brand", .obj [
      ("name", .str "GetVidai"),
      ("tagline", .str "AI Support Agent from Your Content"),
      ("logoType", .str "chat-bubble")]),
    ("theme", .obj [
      ("primaryColor", .str "#3b82f6"),
      ("primaryColorDark", .str "#2563eb"),
      ("accentColor", .str "#60a5fa"),
      ("backgroundColor", .str "#ffffff"),
      ("textColor", .str "#111827")]),
    ("navigation", .obj [
      ("links", .arr [
        .obj [("text", .str "How It Works"), ("href", .str "#how-it-works")],
        .obj [("text", .str "Features"), ("href", .str "#features")],
        .obj [("text", .str "Pricing"), ("href", .str "#pricing")]]),
      ("ctaText", .str "Get Started"),
      ("ctaHref", .str "#early-access")]),
    ("hero", .obj [
      ("badge", .obj [
        ("text", .str "Now in Beta - Limited Spots Available"),
        ("icon", .str "pulse-dot")]),
      ("title", .obj [
        ("main", .str "Turn your website, docs, and PDFs"),
        ("highlight", .str "AI support Agent"),
        ("suffix", .str "into an")]),
      ("description", .str "No coding. No hallucinations. Just powerful AI that knows your business and helps customers instantly."),
      ("ctas", .arr [
        .obj [("text", .str "Get Early Access"), ("href", .str "#early-access"),
          ("style", .str "primary"), ("icon", .str "arrow-right")],
        .obj [("text", .str "See How It Works"), ("href", .str "#how-it-works"),
          ("style", .str "secondary")]]),
      ("stats", .arr [
        .obj [("value", .str "80%"), ("label", .str "Support Load Reduced")],
        .obj [("value", .str "<2s"), ("label", .str "Average Response Time")],
        .obj [("value", .str "24/7"), ("label", .str "Always Available")]])]),
    ("features", .obj [
      ("sectionTitle", .str "Customer Support Is Broken"),
      ("sectionSubtitle", .str "Teams waste hours answering the same questions while customers wait for help"),
      ("badge", .str "THE PROBLEM"),
      ("items", .arr [
        .obj [("title", .str "Repeated Questions"),
          ("description", .str "Your team answers the same FAQs dozens of times per day, burning valuable hours that could be spent building."),
          ("icon", .str "refresh")],
        .obj [("title", .str "Scattered Knowledge"),
          ("description", .str "Answers exist in docs, blogs & PDFs — but customers can't find them, leading to frustration and churn."),
          ("icon", .str "question")],
        .obj [("title", .str "Unreliable AI Bots"),
          ("description", .str "Generic chatbots hallucinate wrong answers, damaging trust and creating more support tickets."),
          ("icon", .str "alert")]])]),
    ("howItWorks", .obj [
      ("sectionTitle", .str "How GetVidai Works"),
      ("sectionSubtitle", .str "Go from content to AI support agent in minutes, not weeks"),
      ("badge", .str "SIMPLE 3-STEP PROCESS"),
      ("steps", .arr [
        .obj [("number", .num 1), ("label", .str "STEP ONE"), ("title", .str "Add Your Content"),
          ("description", .str "Upload your PDFs, documentation, website links, or any knowledge base. GetVidai accepts any format."),
          ("tags", .arr [.str "PDFs", .str "Docs", .str "Websites", .str "FAQs"])],
        .obj [("number", .num 2), ("label", .str "STEP TWO"), ("title", .str "AI Learns Instantly"),
          ("description", .str "Our advanced AI automatically indexes, embeds, and structures your content for accurate retrieval."),
          ("tags", .arr [.str "Auto-Index", .str "Semantic Search", .str "No Training"])],
        .obj [("number", .num 3), ("label", .str "STEP THREE"), ("title", .str "Deploy Anywhere"),
          ("description", .str "Embed on your website, integrate with your apps, or use our dashboard. Start helping customers instantly."),
          ("tags", .arr [.str "Widget", .str "API", .str "Dashboard"])]])]),
    ("cta", .obj [
      ("badge", .str "Limited Beta Access - Only 100 Spots Left"),
      ("title", .str "Get Early Access Today"),
      ("subtitle", .str "Join the waitlist and be among the first to launch your AI support agent."),
      ("description", .str "No credit card required. Setup in 5 minutes."),
      ("form", .obj [
        ("placeholder", .str "Enter your email address"),
        ("buttonText", .str "Join Waitlist"),
        ("disclaimer", .str "By signing up, you agree to receive updates about GetVidai. Unsubscribe anytime.")]),
      ("trustBadges", .arr [
        .obj [("text", .str "SOC 2 Compliant"), ("icon", .str "shield")],
        .obj [("text", .str "GDPR Compliant"), ("icon", .str "lock")],
        .obj [("text", .str "Enterprise Ready"), ("icon", .str "badge")]])]),
    ("footer", .obj [
      ("description", .str "Transform your content into an intelligent AI support agent that delights customers 24/7."),
      ("sections", .arr [
        .obj [("title", .str "Product"),
          ("links", .arr [
            .obj [("text", .str "Features"), ("href", .str "#features")],
            .obj [("text", .str "Pricing"), ("href", .str "#pricing")],
            .obj [("text", .str "Use Cases"), ("href", .str "#use-cases")],
            .obj [("text", .str "Documentation"), ("href", .str "#docs")]])],
        .obj [("title", .str "Company"),
          ("links", .arr [
            .obj [("text", .str "About"), ("href", .str "#about")],
            .obj [("text", .str "Blog"), ("href", .str "#blog")],
            .obj [("text", .str "Careers"), ("href", .str "#careers")],
            .obj [("text", .str "Contact"), ("href", .str "#contact")]])],
        .obj [("title", .str "Legal"),
          ("links", .arr [
            .obj [("text", .str "Privacy Policy"), ("href", .str "#privacy")],
            .obj [("text", .str "Terms of Service"), ("href", .str "#terms")],
            .obj [("text", .str "Security"), ("href", .str "#security")],
            .obj [("text", .str "GDPR"), ("href", .str "#gdpr")]])]]),
      ("social", .arr [
        .obj [("platform", .str "twitter"), ("href", .str "#"), ("icon", .str "twitter")],
        .obj [("platform", .str "github"), ("href", .str "#"), ("icon", .str "github")],
        .obj [("platform", .str "linkedin"), ("href", .str "#"), ("icon", .str "linkedin")]]),
      ("copyright", .str "© 2026 GetVidai. All rights reserved.")]),
    ("meta", .obj [
      ("title", .str "GetVidai – AI Support Agent from Your Content"),
      ("description", .str "Transform your website, docs, and PDFs into an AI support agent. No coding required. 24/7 instant answers for your customers."),
      ("keywords", .str "AI support, chatbot, customer service, automation"),
      ("ogImage", .str "/assets/images/og-image.jpg")]),
    ("forms", .obj [
      ("earlyAccessEndpoint", .str "/api/early-access"),
      ("onSubmit", .fn "onSubmit" 1)])]

/-- The constant `productPageConfig`: the default configuration spread, then
`brand` and `hero` redefined. -/
def productPageConfig : JSVal :=
  .obj (objLit (ownEnum defaultConfig ++ [
    ("brand", .obj [
      ("name", .str "GetVidai Pro"),
      ("tagline", .str "Enterprise AI Support Solution")]),
    ("hero", .obj (objLit (ownEnum (readProp defaultConfig "hero") ++ [
      ("title", .obj [
        ("main", .str "Scale customer support"),
        ("highlight", .str "AI-powered automation"),
        ("suffix", .str "with")]),
      ("description", .str "Enterprise-grade AI support that integrates with your existing tools and scales with your business.")])))]))

/-- The constant `featurePageConfig`: the default configuration spread, then
`hero` redefined. -/
def featurePageConfig : JSVal :=
  .obj (objLit (ownEnum defaultConfig ++ [
    ("hero", .obj (objLit (ownEnum (readProp defaultConfig "hero") ++ [
      ("title", .obj [
        ("main", .str "Eliminate repetitive support tickets"),
        ("highlight", .str "intelligent automation"),
        ("suffix", .str "with")]),
      ("stats", .arr [
        .obj [("value", .str "90%"), ("label", .str "Ticket Reduction")],
        .obj [("value", .str "5min"), ("label", .str "Setup Time")],
        .obj [("value", .str "∞"), ("label", .str "Scalability")]])])))]))

/-! ## Dotted-path access -/

/-- Segments of a string cut at every dot, given the characters of the current
segment read so far (in reverse) and the characters still to read. -/
def splitAux : List Char → List Char → List String
  | cur, [] => [String.mk cur.reverse]
  | cur, c :: cs =>
    if c = '.' then String.mk cur.reverse :: splitAux [] cs else splitAux (c :: cur) cs

/-- The call `path.split('.')`. -/
def split (path : String) : List String := splitAux [] path.data

/-- The method `get(path)` of `LandingPageConfig`, on the instance whose
configuration is `config`: a left fold of `obj?.[key]` over the segments. -/
def LandingPageConfig.get (config : JSVal) (path : String) : Except JSErr JSVal :=
  (split path).foldlM (fun obj key => optGet obj key) config

/-- The number a string of decimal digits writes, `none` for any other string. -/
def parseDigits : List Char → Option Nat
  | [] => none
  | cs => cs.foldl (fun acc c =>
      match acc with
      | some n => if c.isDigit then some (10 * n + (c.toNat - 48)) else none
      | none => none) (some 0)

/-- The array index that the key `k` names, if it names one: `k` is the
canonical decimal form of a number below `2^32 - 1`. -/
def arrayIndex (k : String) : Option Nat :=
  match parseDigits k.data with
  | some n => if toString n = k ∧ n < 4294967295 then some n else none
  | none => none

/-- The inherited setter of `__proto__`, run by the assignment `o.__proto__ = v`
on a value `o` without an own key `__proto__`: it returns without any effect when
`v` is neither an object nor `null` or when `o` is a primitive value; otherwise
it changes the prototype of `o`, which is not modelled. -/
def setProto (o v : JSVal) : Except JSErr JSVal :=
  if o.isObject ∧ (v.isObject ∨ v.isNull) then .error .unsupported
  else .ok o

/-- The list with own properties `ps` after its length is set to `m`: the
indices from `m` on are deleted. -/
def resized (ps : Fields) (m : Nat) : JSVal :=
  .listObj m (ps.filter (fun p =>
    match arrayIndex p.1 with
    | some i => decide (i < m)
    | none => true))

/-- Assignment `list.length = v` on the list with own properties `ps`: the
value is converted to a number, which must be a valid length. -/
def setLength (ps : Fields) (v : JSVal) : Except JSErr JSVal :=
  match v with
  | .num m => if 0 ≤ m ∧ m < 4294967296 then .ok (resized ps m.toNat) else .error .rangeError
  | .null => .ok (resized ps 0)
  | .bool b => .ok (resized ps (if b then 1 else 0))
  | .undefined => .error .rangeError
  | .obj fs =>
    if "valueOf" ∈ keysOf fs ∨ "toString" ∈ keysOf fs then .error .unsupported
    else .error .rangeError
  | _ => .error .unsupported

/-- Assignment `list[k] = v` on the list of length `n` with own properties
`ps`. -/
def setListProp (n : Nat) (ps : Fields) (k : String) (v : JSVal) : Except JSErr JSVal :=
  if k = "length" then setLength ps v
  else if k = "__proto__" ∧ k ∉ keysOf ps then setProto (.listObj n ps) v
  else
    .ok (.listObj
      (match arrayIndex k with
       | some i => max n (i + 1)
       | none => n)
      (assign ps k v))

/-- Assignment `f[k] = v` on the function `f` with added properties `ps`: the own
`length` and `name` are not writable, and the inherited setters of `caller`
and `arguments` throw. -/
def setFnProp (name : String) (arity : Nat) (ps : Fields) (k : String) (v : JSVal) :
    Except JSErr JSVal :=
  if k = "length" ∨ k = "name" then .error .typeError
  else if (k = "caller" ∨ k = "arguments") ∧ k ∉ keysOf ps then .error .typeError
  else if k = "__proto__" ∧ k ∉ keysOf ps then setProto (.fnObj name arity ps) v
  else .ok (.fnObj name arity (assign ps k v))

/-- Assignment `o[k] = v` in strict mode (class bodies are strict mode code).
On a mapping, a list or a function it defines or updates the own property `k`,
with the exceptions spelled out in `setListProp`, `setFnProp` and `setProto`.  On
`undefined` and `null` it throws a `TypeError`; on a primitive value it throws a
`TypeError` too, except for the key `__proto__`, whose inherited setter returns
without any effect. -/
def setProp (o : JSVal) (k : String) (v : JSVal) : Except JSErr JSVal :=
  match o with
  | .obj fs =>
    if k = "__proto__" ∧ k ∉ keysOf fs then setProto (.obj fs) v
    else .ok (.obj (assign fs k v))
  | .arr xs => setListProp xs.length (indexedFrom 0 xs) k v
  | .listObj n ps => setListProp n ps k v
  | .fn name arity => setFnProp name arity [] k v
  | .fnObj name arity ps => setFnProp name arity ps k v
  | .undefined => .error .typeError
  | .null => .error .typeError
  | _ => if k = "__proto__" then .ok o else .error .typeError

/-- The reduce and the final assignment of `set`, run from the node `o`:
`keys.reduce((obj, key) => obj[key] = obj[key] || {}, o)[lastKey] = value`.
The result is `o` after the update; the last line of the step stores the updated
child back in its parent, which is what mutation in place does to the one shared
child object. -/
def setWalk : JSVal → List String → String → JSVal → Except JSErr JSVal
  | target, [], lastKey, value => setProp target lastKey value
  | o, key :: keys, lastKey, value => do
    let cur ← getProp o key
    let next := jsOr cur (.obj [])
    let o1 ← setProp o key next
    let next1 ← setWalk next keys lastKey value
    setProp o1 key next1

/-- The method `set(path, value)` of `LandingPageConfig`, on the instance whose
configuration is `config`; the result is the configuration after the call. -/
def LandingPageConfig.set (config : JSVal) (path : String) (value : JSVal) :
    Except JSErr JSVal :=
  let keys := split path
  let lastKey := keys.getLast?.getD "undefined"
  setWalk config keys.dropLast lastKey value

/-- The constructor of `LandingPageConfig`: the configuration of the new
instance; an omitted argument (`undefined`) stands for the empty object. -/
def LandingPageConfig.new (customConfig : JSVal) : Except JSErr JSVal :=
  mergeConfig defaultConfig (match customConfig with | .undefined => .obj [] | c => c)

/-! ## Page binding -/

/-- Style variables of the page root element: the value stored under each name. -/
abbrev Style := String → Option JSVal

/-- The host call `style.setProperty(name, value)` for a truthy value: stores the
value under the name and leaves every other name as it was. -/
def setProperty (style : Style) (name : String) (value : JSVal) : Style :=
  fun n => if n = name then some value else style n

/-- The method `applyTheme()` of `LandingPageConfig`, on the instance whose
configuration is `config`, as a transformer of the root style variables. -/
def LandingPageConfig.applyTheme (config : JSVal) (rootStyle : Style) :
    Except JSErr Style := do
  let theme ← getProp config "theme"
  let primaryColor ← getProp theme "primaryColor"
  let style1 :=
    if primaryColor.truthy then setProperty rootStyle "--primary-500" primaryColor
    else rootStyle
  let primaryColorDark ← getProp theme "primaryColorDark"
  let style2 :=
    if primaryColorDark.truthy then setProperty style1 "--primary-700" primaryColorDark
    else style1
  return style2

/-- What the page offers to the click handler: `document.querySelector`, which
gives the `offsetTop` of the first element the selector matches, nothing
when no element matches, and throws (a `SyntaxError`) on a selector that is not
valid, such as `#123`. -/
structure Page where
  querySelector : String → Except JSErr (Option Int)

/-- What one run of the click handler did: whether `e.preventDefault()` was
called, the `top` passed to `window.scrollTo` if it was called, and whether the
handler ended by throwing. -/
structure ClickEffect where
  defaultPrevented : Bool
  scrollTop : Option Int
  threw : Bool
  deriving DecidableEq

/-- The click handler that `setupSmoothScroll` installs on an anchor, run on a
click when `this.getAttribute('href')` gives `href` (`none` for `null`). -/
def smoothScrollClick (page : Page) (href : Option String) : ClickEffect :=
  if href ≠ some "#" ∧ href ≠ some "" then
    match page.querySelector (href.getD "null") with
    | .error _ => ⟨true, none, true⟩
    | .ok none => ⟨true, none, false⟩
    | .ok (some offsetTop) => ⟨true, some (offsetTop - 80), false⟩
  else ⟨false, none, false⟩

/-! ## Auxiliary definitions for the statements and proofs -/

/-- The object literal with two spread members and no explicit key. -/
def spread2 (a b : JSVal) : JSVal :=
  .obj (objLit (ownEnum a ++ ownEnum b))

/-- The ten explicit keys of the object literal that `mergeConfig` returns, with
their values. -/
def mergedSections (base custom : JSVal) : Fields :=
  [("brand", spread2 (readProp base "brand") (readProp custom "brand")),
   ("theme", spread2 (readProp base "theme") (readProp custom "theme")),
   ("navigation", spread2 (readProp base "navigation") (readProp custom "navigation")),
   ("hero", .obj (objLit (ownEnum (readProp base "hero") ++ ownEnum (readProp custom "hero") ++ [
      ("title", spread2 (readProp (readProp base "hero") "title")
        (readProp (readProp custom "hero") "title")),
      ("badge", spread2 (readProp (readProp base "hero") "badge")
        (readProp (readProp custom "hero") "badge"))]))),
   ("features", spread2 (readProp base "features") (readProp custom "features")),
   ("howItWorks", spread2 (readProp base "howItWorks") (readProp custom "howItWorks")),
   ("cta", .obj (objLit (ownEnum (readProp base "cta") ++ ownEnum (readProp custom "cta") ++ [
      ("form", spread2 (readProp (readProp base "cta") "form")
        (readProp (readProp custom "cta") "form"))]))),
   ("footer", spread2 (readProp base "footer") (readProp custom "footer")),
   ("meta", spread2 (readProp base "meta") (readProp custom "meta")),
   ("forms", spread2 (readProp base "forms") (readProp custom "forms"))]

/-- The value `mergeConfig` returns when it does not throw. -/
def merged (base custom : JSVal) : JSVal :=
  .obj (objLit (ownEnum base ++ ownEnum custom ++ mergedSections base custom))

/-- The ten section names that `mergeConfig` merges one level down. -/
def sectionNames : List String :=
  ["brand", "theme", "navigation", "hero", "features", "howItWorks", "cta", "footer",
   "meta", "forms"]

/-- The value written in the specification for the merged primary colour:
`O.theme?.primaryColor ?? B.theme.primaryColor`. -/
def specPrimaryColor (B O : JSVal) : JSVal :=
  coalesce (readProp (readProp O "theme") "primaryColor")
    (readProp (readProp B "theme") "primaryColor")

/-- Absence of a path as the specification words it: some segment is missing
when walking nested mappings from the root, and every path that continues below
a value that is not a mapping is absent. -/
def specAbsent : JSVal → List String → Bool
  | _, [] => false
  | .obj fs, k :: ks =>
    match lookup k fs with
    | none => true
    | some x => specAbsent x ks
  | _, _ :: _ => true

/-- Absence of a path on properties: walking the segments from `v` through own
properties, some segment is read below `undefined` or `null`, or is not a
property of the value reached, neither an own one nor one found on its prototype
chain. -/
def absentPath : JSVal → List String → Bool
  | _, [] => false
  | v, k :: ks =>
    if v.isNullish then true
    else if hasOwn v k then absentPath (readProp v k) ks
    else !decide (k ∈ inheritedNames v)

/-- Whether the key `k` names a built-in member of the value `v` rather than a
data property of it: a name found on the prototype chain of `v` and not shadowed
by an own property, the `length` of a list, the `length` or `name` of a
function. -/
def builtinMember (v : JSVal) (k : String) : Bool :=
  (!hasOwn v k && decide (k ∈ inheritedNames v)) ||
  (v.isList && decide (k = "length")) ||
  (v.isFn && (decide (k = "length") || decide (k = "name")))

/-- The path with proper prefix `keys` and last key `lastKey` can be walked by
`set` from the node `v`: each node is an object (a mapping, a list or a
function), no key names a built-in member of the node it is applied to, and the
value under each key of the prefix is falsy (it is then replaced by a new empty
mapping) or is again such a node. -/
def settable : JSVal → List String → String → Bool
  | v, [], lastKey => v.isObject && !builtinMember v lastKey
  | v, k :: ks, lastKey =>
    v.isObject && !builtinMember v k && settable (jsOr (readProp v k) (.obj [])) ks lastKey

/-- A root style in which `--primary-500` holds `#000000` and no other variable
is set. -/
def sampleStyle : Style :=
  fun n => if n = "--primary-500" then some (.str "#000000") else none

/-- A page in which no selector matches an element. -/
def emptyPage : Page :=
  ⟨fun _ => .ok none⟩

/-- Key order of an object being built: a key that is already present keeps its
place, a new key goes to the end. -/
def addKey (ks : List String) (k : String) : List String :=
  if k ∈ ks then ks else ks ++ [k]

/-- The value reached from `v` along the keys `p`, each one a key that the value
before it sets (an own enumerable key); `none` when some key of the path is not
set. -/
def ownPath : JSVal → List String → Option JSVal
  | v, [] => some v
  | v, k :: ks =>
    match lookup k (ownEnum v) with
    | none => none
    | some x => ownPath x ks

/-- Paths of the top-level keys of a configuration. -/
def fieldPaths1 (B : JSVal) : List (List String) :=
  (keysOf (ownEnum B)).map (fun s => [s])

/-- Paths of the keys of the sections of a configuration. -/
def fieldPaths2 (B : JSVal) : List (List String) :=
  (keysOf (ownEnum B)).flatMap
    (fun s => (keysOf (ownEnum (readProp B s))).map (fun k => [s, k]))

/-- Paths of the keys of `hero.title`, `hero.badge` and `cta.form`. -/
def fieldPaths3 (B : JSVal) : List (List String) :=
  [("hero", "title"), ("hero", "badge"), ("cta", "form")].flatMap
    (fun ab => (keysOf (ownEnum (readProp (readProp B ab.1) ab.2))).map
      (fun k => [ab.1, ab.2, k]))

/-- The fields of `defaultConfig` reached through nested mappings: its top-level
keys, the keys of its ten sections, and the keys of `hero.title`, `hero.badge`
and `cta.form`. -/
def defaultFieldPaths : List (List String) :=
  fieldPaths1 defaultConfig ++ fieldPaths2 defaultConfig ++ fieldPaths3 defaultConfig

/-! ## Property tables: lookup after definition -/

theorem lookup_cons (k k' : String) (v : JSVal) (rest : Fields) :
    lookup k ((k', v) :: rest) = (lookup k rest).or (if k' = k then some v else none) := by
  simp only [lookup]
  cases lookup k rest <;> simp

theorem lookup_append (k : String) (a b : Fields) :
    lookup k (a ++ b) = (lookup k b).or (lookup k a) := by
  induction a with
  | nil => simp [lookup]
  | cons p a ih =>
    obtain ⟨k', v⟩ := p
    simp [lookup_cons, ih, Option.or_assoc]

theorem lookup_eq_none_iff (k : String) (fs : Fields) :
    lookup k fs = none ↔ k ∉ keysOf fs := by
  induction fs with
  | nil => simp [lookup, keysOf]
  | cons p fs ih =>
    obtain ⟨k', v⟩ := p
    rw [lookup_cons]
    simp only [keysOf, List.map_cons, List.mem_cons, not_or] at ih ⊢
    cases h : lookup k fs with
    | none =>
      have := ih.mp h
      by_cases hk : k' = k
      · simp [hk]
      · simp [hk, this, Ne.symm hk]
    | some x =>
      have hin : k ∈ List.map Prod.fst fs := by
        by_contra hn
        have := ih.mpr hn
        simp [h] at this
      constructor
      · intro hc
        simp at hc
      · intro hc
        exact absurd hin hc.2

theorem lookup_map_update (k k' : String) (v : JSVal) (fs : Fields) (hk : k ∈ keysOf fs) :
    lookup k' (fs.map (fun p => if p.1 = k then (p.1, v) else p))
      = if k' = k then some v else lookup k' fs := by
  induction fs with
  | nil => simp [keysOf] at hk
  | cons p fs ih =>
    obtain ⟨k0, v0⟩ := p
    simp only [List.map_cons]
    by_cases hmem : k ∈ keysOf fs
    · have ih1 := ih hmem
      by_cases h0 : k0 = k
      · subst h0
        simp only [if_true, lookup_cons, ih1]
        by_cases hkk : k' = k0
        · simp [hkk]
        · simp [hkk, Ne.symm hkk]
      · simp only [h0, if_false, lookup_cons, ih1]
        by_cases hkk : k' = k
        · simp [hkk]
        · simp [hkk]
    · have h0 : k0 = k := by
        simp only [keysOf, List.map_cons, List.mem_cons] at hk hmem
        rcases hk with h | h
        · exact h.symm
        · exact absurd h hmem
      subst h0
      have hfs : fs.map (fun p => if p.1 = k0 then (p.1, v) else p) = fs := by
        have : ∀ p ∈ fs, (if p.1 = k0 then (p.1, v) else p) = p := by
          intro p hp
          have : p.1 ≠ k0 := fun he => hmem (by
            simp only [keysOf, List.mem_map]
            exact ⟨p, hp, he⟩)
          simp [this]
        calc fs.map (fun p => if p.1 = k0 then (p.1, v) else p) = fs.map id :=
              List.map_congr_left (by simpa using this)
          _ = fs := List.map_id fs
      simp only [if_true, hfs, lookup_cons]
      by_cases hkk : k' = k0
      · subst hkk
        simp [(lookup_eq_none_iff k' fs).mpr hmem]
      · have hne : ¬ k0 = k' := fun h => hkk h.symm
        simp [hkk, hne]

theorem lookup_assign (k k' : String) (v : JSVal) (fs : Fields) :
    lookup k' (assign fs k v) = if k' = k then some v else lookup k' fs := by
  unfold assign
  by_cases hk : k ∈ keysOf fs
  · simp only [hk, if_true]
    exact lookup_map_update k k' v fs hk
  · simp only [hk, if_false, lookup_append, lookup_cons, lookup]
    by_cases hkk : k' = k
    · subst hkk
      simp
    · have hne : ¬ k = k' := fun h => hkk h.symm
      simp [hkk, hne]

theorem lookup_foldl_assign (k : String) (es acc : Fields) :
    lookup k (es.foldl (fun a p => assign a p.1 p.2) acc) = (lookup k es).or (lookup k acc) := by
  induction es generalizing acc with
  | nil => simp [lookup]
  | cons p es ih =>
    obtain ⟨k0, v0⟩ := p
    simp only [List.foldl_cons, ih, lookup_assign, lookup_cons]
    by_cases hkk : k = k0
    · subst hkk
      cases lookup k es <;> simp
    · have hne : ¬ k0 = k := fun h => hkk h.symm
      cases lookup k es <;> simp [hkk, hne]

theorem lookup_objLit (k : String) (es : Fields) : lookup k (objLit es) = lookup k es := by
  unfold objLit
  rw [lookup_foldl_assign]
  simp [lookup]

/-! ## The result of `mergeConfig` -/

theorem readProp_nullish (v : JSVal) (k : String) (h : v.isNullish = true) :
    readProp v k = .undefined := by
  cases v <;> simp [JSVal.isNullish] at h <;> rfl

theorem not_inherited (v : JSVal) (k : String) (hk : k ∉ allProtoNames) :
    k ∉ inheritedNames v := by
  intro h
  apply hk
  cases v <;> simp only [inheritedNames, allProtoNames, List.mem_append, List.not_mem_nil] at h ⊢
    <;> tauto

theorem readProp_of_not_hasOwn (v : JSVal) (k : String) (h : hasOwn v k = false) :
    readProp v k = .undefined := by
  cases v with
  | obj fs =>
    have hk : k ∉ keysOf fs := by simpa [hasOwn] using h
    simp [readProp, (lookup_eq_none_iff k fs).mpr hk]
  | arr xs =>
    simp only [hasOwn, Bool.or_eq_false_iff, decide_eq_false_iff_not] at h
    simp [readProp, h.1, (lookup_eq_none_iff k _).mpr h.2]
  | str s0 =>
    simp only [hasOwn, Bool.or_eq_false_iff, decide_eq_false_iff_not] at h
    simp [readProp, h.1, (lookup_eq_none_iff k _).mpr h.2]
  | surrogate u =>
    simp only [hasOwn, Bool.or_eq_false_iff, decide_eq_false_iff_not] at h
    simp [readProp, h.1, h.2]
  | listObj n ps =>
    simp only [hasOwn, Bool.or_eq_false_iff, decide_eq_false_iff_not] at h
    simp [readProp, h.1, (lookup_eq_none_iff k _).mpr h.2]
  | fn name arity =>
    simp only [hasOwn, Bool.or_eq_false_iff, decide_eq_false_iff_not] at h
    simp [readProp, h.1, h.2]
  | fnObj name arity ps =>
    simp only [hasOwn, Bool.or_eq_false_iff, decide_eq_false_iff_not] at h
    simp [readProp, h.1.1, h.1.2, (lookup_eq_none_iff k _).mpr h.2]
  | undefined => rfl
  | null => rfl
  | bool b => rfl
  | num n => rfl

theorem getProp_eq (v : JSVal) (k : String) (h : v.isNullish = false)
    (hk : k ∉ allProtoNames) : getProp v k = .ok (readProp v k) := by
  unfold getProp
  cases ho : hasOwn v k with
  | true => simp [h]
  | false => simp [h, not_inherited v k hk, readProp_of_not_hasOwn v k ho]

theorem optGet_eq (v : JSVal) (k : String) (hk : k ∉ allProtoNames) :
    optGet v k = .ok (readProp v k) := by
  unfold optGet
  cases h : v.isNullish with
  | true => simp [readProp_nullish v k h]
  | false => simpa using getProp_eq v k h hk

theorem isNullish_of_readProp (v : JSVal) (k : String)
    (h : (readProp v k).isNullish = false) : v.isNullish = false := by
  cases hv : v.isNullish with
  | false => rfl
  | true => rw [readProp_nullish v k hv] at h; exact absurd h (by decide)

theorem mergeConfig_eq (base custom : JSVal) (hc : custom.isNullish = false)
    (hh : (readProp base "hero").isNullish = false)
    (hcta : (readProp base "cta").isNullish = false) :
    mergeConfig base custom = .ok (merged base custom) := by
  have hb : base.isNullish = false := isNullish_of_readProp base "hero" hh
  simp only [mergeConfig,
    getProp_eq base "brand" hb (by decide),
    getProp_eq custom "brand" hc (by decide),
    getProp_eq base "theme" hb (by decide),
    getProp_eq custom "theme" hc (by decide),
    getProp_eq base "navigation" hb (by decide),
    getProp_eq custom "navigation" hc (by decide),
    getProp_eq base "hero" hb (by decide),
    getProp_eq custom "hero" hc (by decide),
    getProp_eq base "features" hb (by decide),
    getProp_eq custom "features" hc (by decide),
    getProp_eq base "howItWorks" hb (by decide),
    getProp_eq custom "howItWorks" hc (by decide),
    getProp_eq base "cta" hb (by decide),
    getProp_eq custom "cta" hc (by decide),
    getProp_eq base "footer" hb (by decide),
    getProp_eq custom "footer" hc (by decide),
    getProp_eq base "meta" hb (by decide),
    getProp_eq custom "meta" hc (by decide),
    getProp_eq base "forms" hb (by decide),
    getProp_eq custom "forms" hc (by decide),
    getProp_eq _ "title" hh (by decide), getProp_eq _ "badge" hh (by decide),
    getProp_eq _ "form" hcta (by decide),
    optGet_eq _ "title" (by decide), optGet_eq _ "badge" (by decide),
    optGet_eq _ "form" (by decide), bind, Except.bind, pure, Except.pure]
  rfl

theorem readProp_spread2 (a b : JSVal) (k : String) :
    readProp (spread2 a b) k
      = ((lookup k (ownEnum b)).or (lookup k (ownEnum a))).getD .undefined := by
  simp [spread2, readProp, lookup_objLit, lookup_append]

theorem readProp_eq_own (v : JSVal) (k : String) (h1 : k ≠ "length") (h2 : k ≠ "name") :
    readProp v k = (lookup k (ownEnum v)).getD .undefined := by
  cases v <;> simp [readProp, ownEnum, lookup, h1, h2]
  by_cases hk : k = "0" <;> simp [hk, eq_comm]

theorem lookup_mergedSections_none (B O : JSVal) (k : String) (hk : k ∉ sectionNames) :
    lookup k (mergedSections B O) = none := by
  rw [lookup_eq_none_iff]
  simpa [mergedSections, keysOf, sectionNames] using hk

theorem readProp_merged (B O : JSVal) (k : String) :
    readProp (merged B O) k
      = ((lookup k (mergedSections B O)).or
          ((lookup k (ownEnum O)).or (lookup k (ownEnum B)))).getD .undefined := by
  simp [merged, readProp, lookup_objLit, lookup_append, Option.or_assoc]

theorem readProp_merged_other (B O : JSVal) (k : String) (hk : k ∉ sectionNames) :
    readProp (merged B O) k
      = ((lookup k (ownEnum O)).or (lookup k (ownEnum B))).getD .undefined := by
  rw [readProp_merged, lookup_mergedSections_none B O k hk, Option.none_or]

theorem readProp_merged_theme (B O : JSVal) :
    readProp (merged B O) "theme" = spread2 (readProp B "theme") (readProp O "theme") := by
  rw [readProp_merged]
  simp [mergedSections, lookup_cons, lookup]

theorem readProp_merged_navigation (B O : JSVal) :
    readProp (merged B O) "navigation"
      = spread2 (readProp B "navigation") (readProp O "navigation") := by
  rw [readProp_merged]
  simp [mergedSections, lookup_cons, lookup]

theorem readProp_merged_features (B O : JSVal) :
    readProp (merged B O) "features"
      = spread2 (readProp B "features") (readProp O "features") := by
  rw [readProp_merged]
  simp [mergedSections, lookup_cons, lookup]

theorem readProp_merged_hero (B O : JSVal) :
    readProp (merged B O) "hero"
      = .obj (objLit (ownEnum (readProp B "hero") ++ ownEnum (readProp O "hero") ++ [
          ("title", spread2 (readProp (readProp B "hero") "title")
            (readProp (readProp O "hero") "title")),
          ("badge", spread2 (readProp (readProp B "hero") "badge")
            (readProp (readProp O "hero") "badge"))])) := by
  rw [readProp_merged]
  simp [mergedSections, lookup_cons, lookup]

theorem readProp_merged_cta (B O : JSVal) :
    readProp (merged B O) "cta"
      = .obj (objLit (ownEnum (readProp B "cta") ++ ownEnum (readProp O "cta") ++ [
          ("form", spread2 (readProp (readProp B "cta") "form")
            (readProp (readProp O "cta") "form"))])) := by
  rw [readProp_merged]
  simp [mergedSections, lookup_cons, lookup]

theorem readProp_merged_hero_title (B O : JSVal) :
    readProp (readProp (merged B O) "hero") "title"
      = spread2 (readProp (readProp B "hero") "title") (readProp (readProp O "hero") "title") := by
  rw [readProp_merged_hero]
  simp [readProp, lookup_objLit, lookup_append, lookup_cons, lookup]

theorem readProp_merged_hero_badge (B O : JSVal) :
    readProp (readProp (merged B O) "hero") "badge"
      = spread2 (readProp (readProp B "hero") "badge") (readProp (readProp O "hero") "badge") := by
  rw [readProp_merged_hero]
  simp [readProp, lookup_objLit, lookup_append, lookup_cons, lookup]

theorem readProp_merged_cta_form (B O : JSVal) :
    readProp (readProp (merged B O) "cta") "form"
      = spread2 (readProp (readProp B "cta") "form") (readProp (readProp O "cta") "form") := by
  rw [readProp_merged_cta]
  simp [readProp, lookup_objLit, lookup_append, lookup_cons, lookup]

/-! ## Claims on `mergeConfig` -/

/-- C2: for a base configuration `B` whose `hero.title`, `hero.badge` and
`cta.form` are mappings and every override `O`, each of the three sub-objects of
`mergeConfig(B, O)` is the shallow merge of the sub-object of `B` with that of `O`:
a key that the sub-object of `O` sets has the value given by `O`, every other key has
the value it has in `B`.  In particular `mergeConfig(B, {hero: {title: {main: X}}})`
has `hero.title.main = X` and keeps `hero.title.highlight`, and with
`B.cta.form.buttonText = "Join Waitlist"` the override
`{cta: {form: {disclaimer: "New text"}}}` keeps `buttonText` and sets `disclaimer`. -/
theorem mergeConfig_second_level (B : JSVal) (bt bb bf : Fields)
    (hT : readProp (readProp B "hero") "title" = .obj bt)
    (hB : readProp (readProp B "hero") "badge" = .obj bb)
    (hF : readProp (readProp B "cta") "form" = .obj bf) :
    (∀ O : JSVal, O.isNullish = false → ∃ M, mergeConfig B O = .ok M ∧
      (∀ k, readProp (readProp (readProp M "hero") "title") k
        = match lookup k (ownEnum (readProp (readProp O "hero") "title")) with
          | some v => v
          | none => readProp (.obj bt) k) ∧
      (∀ k, readProp (readProp (readProp M "hero") "badge") k
        = match lookup k (ownEnum (readProp (readProp O "hero") "badge")) with
          | some v => v
          | none => readProp (.obj bb) k) ∧
      (∀ k, readProp (readProp (readProp M "cta") "form") k
        = match lookup k (ownEnum (readProp (readProp O "cta") "form")) with
          | some v => v
          | none => readProp (.obj bf) k)) ∧
    (∀ X : JSVal, ∃ M,
      mergeConfig B (.obj [("hero", .obj [("title", .obj [("main", X)])])]) = .ok M ∧
      readProp (readProp (readProp M "hero") "title") "main" = X ∧
      readProp (readProp (readProp M "hero") "title") "highlight"
        = readProp (readProp (readProp B "hero") "title") "highlight") ∧
    (readProp (readProp (readProp B "cta") "form") "buttonText" = .str "Join Waitlist" →
      ∃ M, mergeConfig B
          (.obj [("cta", .obj [("form", .obj [("disclaimer", .str "New text")])])]) = .ok M ∧
        readProp (readProp (readProp M "cta") "form") "buttonText" = .str "Join Waitlist" ∧
        readProp (readProp (readProp M "cta") "form") "disclaimer" = .str "New text") := by
  have hh : (readProp B "hero").isNullish = false :=
    isNullish_of_readProp _ "title" (by rw [hT]; rfl)
  have hcta : (readProp B "cta").isNullish = false :=
    isNullish_of_readProp _ "form" (by rw [hF]; rfl)
  refine ⟨?_, ?_, ?_⟩
  · intro O hO
    refine ⟨merged B O, mergeConfig_eq B O hO hh hcta, ?_, ?_, ?_⟩
    · intro k
      rw [readProp_merged_hero_title, readProp_spread2, hT]
      cases lookup k (ownEnum (readProp (readProp O "hero") "title")) <;> simp [readProp, ownEnum]
    · intro k
      rw [readProp_merged_hero_badge, readProp_spread2, hB]
      cases lookup k (ownEnum (readProp (readProp O "hero") "badge")) <;> simp [readProp, ownEnum]
    · intro k
      rw [readProp_merged_cta_form, readProp_spread2, hF]
      cases lookup k (ownEnum (readProp (readProp O "cta") "form")) <;> simp [readProp, ownEnum]
  · intro X
    refine ⟨_, mergeConfig_eq B _ rfl hh hcta, ?_, ?_⟩
    · rw [readProp_merged_hero_title, readProp_spread2]
      simp [readProp, ownEnum, lookup_cons, lookup]
    · rw [readProp_merged_hero_title, readProp_spread2, hT]
      simp [readProp, ownEnum, lookup_cons, lookup]
  · intro hbtn
    refine ⟨_, mergeConfig_eq B _ rfl hh hcta, ?_, ?_⟩
    · rw [readProp_merged_cta_form, readProp_spread2, ← hbtn, hF]
      simp [readProp, ownEnum, lookup_cons, lookup]
    · rw [readProp_merged_cta_form, readProp_spread2]
      simp [readProp, ownEnum, lookup_cons, lookup]

/-- Witness of C2 on the default configuration. -/
theorem mergeConfig_second_level_witness :
    ∃ M, mergeConfig defaultConfig
        (.obj [("cta", .obj [("form", .obj [("disclaimer", .str "New text")])])]) = .ok M ∧
      readProp (readProp (readProp M "cta") "form") "buttonText" = .str "Join Waitlist" ∧
      readProp (readProp (readProp M "cta") "form") "disclaimer" = .str "New text" :=
  (mergeConfig_second_level defaultConfig _ _ _ rfl rfl rfl).2.2 rfl

/-- C3, counterexample: with the default configuration as base and the override
`{theme: {primaryColor: null}}` the merged `theme.primaryColor` is `null`, while
`O.theme?.primaryColor ?? B.theme.primaryColor` is `"#3b82f6"`. -/
theorem mergeConfig_primaryColor_null :
    ∃ M, mergeConfig defaultConfig (.obj [("theme", .obj [("primaryColor", .null)])]) = .ok M ∧
      readProp (readProp M "theme") "primaryColor" = .null ∧
      specPrimaryColor defaultConfig (.obj [("theme", .obj [("primaryColor", .null)])])
        = .str "#3b82f6" ∧
      readProp (readProp M "theme") "primaryColor"
        ≠ specPrimaryColor defaultConfig (.obj [("theme", .obj [("primaryColor", .null)])]) :=
  ⟨_, rfl, rfl, rfl, fun h => JSVal.noConfusion h⟩

/-- C3, as amended: for a base configuration `B` (with `hero` and `cta` sections)
and every override `O`, the merged `theme.primaryColor` is the value that
`O.theme` gives to its own key `primaryColor` when it has that key, whatever the
value (also `null` or `undefined`), and `B.theme.primaryColor` when `O.theme` has no
such key; so it equals `O.theme?.primaryColor ?? B.theme.primaryColor` whenever
`O.theme` does not set `primaryColor` to `null` or `undefined`. -/
theorem mergeConfig_primaryColor (B O : JSVal) (hO : O.isNullish = false)
    (hh : (readProp B "hero").isNullish = false)
    (hcta : (readProp B "cta").isNullish = false) :
    ∃ M, mergeConfig B O = .ok M ∧
      (∀ v, lookup "primaryColor" (ownEnum (readProp O "theme")) = some v →
        readProp (readProp M "theme") "primaryColor" = v) ∧
      (lookup "primaryColor" (ownEnum (readProp O "theme")) = none →
        readProp (readProp M "theme") "primaryColor"
          = readProp (readProp B "theme") "primaryColor") ∧
      ((∀ v, lookup "primaryColor" (ownEnum (readProp O "theme")) = some v →
          v.isNullish = false) →
        readProp (readProp M "theme") "primaryColor" = specPrimaryColor B O) := by
  have hB := readProp_eq_own (readProp B "theme") "primaryColor" (by decide) (by decide)
  have hOt := readProp_eq_own (readProp O "theme") "primaryColor" (by decide) (by decide)
  refine ⟨merged B O, mergeConfig_eq B O hO hh hcta, ?_, ?_, ?_⟩
  · intro v hv
    rw [readProp_merged_theme, readProp_spread2, hv]
    simp
  · intro hn
    rw [readProp_merged_theme, readProp_spread2, hn, hB]
    simp
  · intro hv
    rw [readProp_merged_theme, readProp_spread2, specPrimaryColor, hOt, hB]
    cases hl : lookup "primaryColor" (ownEnum (readProp O "theme")) with
    | none => simp [coalesce, JSVal.isNullish]
    | some v => simp [coalesce, hv v hl]

/-- Witness of the amended C3 on the default configuration. -/
theorem mergeConfig_primaryColor_witness :
    ∃ M, mergeConfig defaultConfig (.obj [("theme", .obj [("primaryColor", .null)])]) = .ok M ∧
      (∀ v, lookup "primaryColor" (ownEnum (readProp
          (.obj [("theme", .obj [("primaryColor", .null)])]) "theme")) = some v →
        readProp (readProp M "theme") "primaryColor" = v) :=
  let ⟨M, h, h1, _⟩ := mergeConfig_primaryColor defaultConfig
    (.obj [("theme", .obj [("primaryColor", .null)])]) rfl rfl rfl
  ⟨M, h, h1⟩

/-- C4: for a base configuration `B` (a mapping with `hero` and `cta` sections),
an override object `O` and a key `k` outside the ten section names, the merged
`[k]` is exactly `O[k]` when `O` has the key `k` and exactly `B[k]` otherwise. -/
theorem mergeConfig_other_key (bf cf : Fields) (k : String)
    (hh : (readProp (.obj bf) "hero").isNullish = false)
    (hcta : (readProp (.obj bf) "cta").isNullish = false)
    (hk : k ∉ sectionNames) :
    ∃ M, mergeConfig (.obj bf) (.obj cf) = .ok M ∧
      (∀ v, lookup k cf = some v → readProp M k = v) ∧
      (lookup k cf = none → readProp M k = readProp (.obj bf) k) := by
  refine ⟨_, mergeConfig_eq (.obj bf) (.obj cf) rfl hh hcta, ?_, ?_⟩
  · intro v hv
    rw [readProp_merged_other _ _ k hk]
    simp [ownEnum, hv]
  · intro hn
    rw [readProp_merged_other _ _ k hk]
    simp [ownEnum, hn, readProp]

/-- Witness of C4: the unknown key `analytics` of an override of the default
configuration. -/
theorem mergeConfig_other_key_witness :
    ∃ M, mergeConfig defaultConfig (.obj [("analytics", .obj [("id", .str "UA-1")])]) = .ok M ∧
      (∀ v, lookup "analytics" [("analytics", JSVal.obj [("id", .str "UA-1")])] = some v →
        readProp M "analytics" = v) ∧
      (lookup "analytics" [("analytics", JSVal.obj [("id", .str "UA-1")])] = none →
        readProp M "analytics" = readProp defaultConfig "analytics") :=
  mergeConfig_other_key _ _ "analytics" rfl rfl (by decide)

/-- C5: for a base configuration `B` (with `hero` and `cta` sections) and every
list `L`, `mergeConfig(B, {navigation: {links: L}}).navigation.links` is exactly
`L`, and `ctaText` and `ctaHref` keep the values of `B.navigation`; likewise
`hero.ctas` and `features.items` are replaced by the list the override gives. -/
theorem mergeConfig_array_replaced (B : JSVal) (L : List JSVal)
    (hh : (readProp B "hero").isNullish = false)
    (hcta : (readProp B "cta").isNullish = false) :
    (∃ M, mergeConfig B (.obj [("navigation", .obj [("links", .arr L)])]) = .ok M ∧
      readProp (readProp M "navigation") "links" = .arr L ∧
      readProp (readProp M "navigation") "ctaText" = readProp (readProp B "navigation") "ctaText" ∧
      readProp (readProp M "navigation") "ctaHref"
        = readProp (readProp B "navigation") "ctaHref") ∧
    (∃ M, mergeConfig B (.obj [("hero", .obj [("ctas", .arr L)])]) = .ok M ∧
      readProp (readProp M "hero") "ctas" = .arr L) ∧
    (∃ M, mergeConfig B (.obj [("features", .obj [("items", .arr L)])]) = .ok M ∧
      readProp (readProp M "features") "items" = .arr L) := by
  refine ⟨⟨_, mergeConfig_eq B _ rfl hh hcta, ?_, ?_, ?_⟩,
    ⟨_, mergeConfig_eq B _ rfl hh hcta, ?_⟩, ⟨_, mergeConfig_eq B _ rfl hh hcta, ?_⟩⟩
  · rw [readProp_merged_navigation, readProp_spread2]
    simp [readProp, ownEnum, lookup_cons, lookup]
  · rw [readProp_merged_navigation, readProp_spread2,
      readProp_eq_own (readProp B "navigation") "ctaText" (by decide) (by decide)]
    simp [readProp, ownEnum, lookup_cons, lookup]
  · rw [readProp_merged_navigation, readProp_spread2,
      readProp_eq_own (readProp B "navigation") "ctaHref" (by decide) (by decide)]
    simp [readProp, ownEnum, lookup_cons, lookup]
  · rw [readProp_merged_hero]
    simp [readProp, ownEnum, lookup_objLit, lookup_append, lookup_cons, lookup]
  · rw [readProp_merged_features, readProp_spread2]
    simp [readProp, ownEnum, lookup_cons, lookup]

/-- Witness of C5: the empty list of links over the default configuration. -/
theorem mergeConfig_array_replaced_witness :
    ∃ M, mergeConfig defaultConfig (.obj [("navigation", .obj [("links", .arr [])])]) = .ok M ∧
      readProp (readProp M "navigation") "links" = .arr [] ∧
      readProp (readProp M "navigation") "ctaText" = .str "Get Started" ∧
      readProp (readProp M "navigation") "ctaHref" = .str "#early-access" :=
  (mergeConfig_array_replaced defaultConfig [] rfl rfl).1

/-! ## Claims on `get` and `set` -/

theorem walk_undefined (keys : List String) :
    keys.foldlM (fun obj key => optGet obj key) JSVal.undefined = .ok .undefined := by
  induction keys with
  | nil => rfl
  | cons k ks ih =>
    rw [List.foldlM_cons]
    exact ih

theorem getProp_own (v : JSVal) (k : String) (ho : hasOwn v k = true) :
    getProp v k = .ok (readProp v k) := by
  have hn : v.isNullish = false := by
    cases v <;> simp [hasOwn] at ho <;> rfl
  simp [getProp, hn, ho]

theorem optGet_own (v : JSVal) (k : String) (ho : hasOwn v k = true) :
    optGet v k = .ok (readProp v k) := by
  have hn : v.isNullish = false := by
    cases v <;> simp [hasOwn] at ho <;> rfl
  simp [optGet, getProp, hn, ho]

theorem walk_absent (keys : List String) (v : JSVal) (h : absentPath v keys = true) :
    keys.foldlM (fun obj key => optGet obj key) v = .ok .undefined := by
  induction keys generalizing v with
  | nil => simp [absentPath] at h
  | cons k ks ih =>
    rw [List.foldlM_cons]
    cases hn : v.isNullish with
    | true =>
      have h1 : optGet v k = .ok .undefined := by simp [optGet, hn]
      rw [h1]
      exact walk_undefined ks
    | false =>
      cases ho : hasOwn v k with
      | true =>
        simp only [absentPath, hn, ho, if_true, Bool.false_eq_true, if_false] at h
        rw [optGet_own v k ho]
        exact ih _ h
      | false =>
        simp only [absentPath, hn, ho, Bool.false_eq_true, if_false, Bool.not_eq_true',
          decide_eq_false_iff_not] at h
        have h1 : optGet v k = .ok .undefined := by simp [optGet, getProp, hn, ho, h]
        rw [h1]
        exact walk_undefined ks

/-- C6, counterexample: on a new instance the path `brand.name.length` continues
below the string leaf `brand.name`, so it is absent in the sense of the claim, and
`get` returns `8`, the length of `"GetVidai"`, not `undefined`. -/
theorem get_below_string_leaf :
    ∃ cfg, LandingPageConfig.new (.obj []) = .ok cfg ∧
      specAbsent cfg (split "brand.name.length") = true ∧
      LandingPageConfig.get cfg "brand.name.length" = .ok (.num 8) :=
  ⟨_, rfl, rfl, rfl⟩

/-- C6, as amended: `get(P)` returns `undefined`, without throwing, whenever
walking `P` from the configuration root through own properties meets a segment
that is read below `undefined` or `null`, or that is not a property of the value
reached: neither an own property (a key of a mapping, an index or `length` of a
string or of a list, a named property of a list, `length` or `name` of a
function, a property added to a function) nor a member the value inherits from
its built-in prototype (`toString`, `constructor`, ..., and for a string also
`trim`, ..., for a list `map`, ...). -/
theorem get_absent (cfg : JSVal) (P : String) (h : absentPath cfg (split P) = true) :
    LandingPageConfig.get cfg P = .ok .undefined :=
  walk_absent _ _ h

/-- Witness of the amended C6: a path below a string leaf, a key missing from a
mapping, and the empty path. -/
theorem get_absent_witness :
    LandingPageConfig.get defaultConfig "brand.name.first" = .ok .undefined ∧
    LandingPageConfig.get defaultConfig "hero.subtitle.text" = .ok .undefined ∧
    LandingPageConfig.get defaultConfig "" = .ok .undefined :=
  ⟨get_absent defaultConfig "brand.name.first" rfl,
   get_absent defaultConfig "hero.subtitle.text" rfl,
   get_absent defaultConfig "" rfl⟩

theorem split_ne_nil (cur rest : List Char) : splitAux cur rest ≠ [] := by
  induction rest generalizing cur with
  | nil => simp [splitAux]
  | cons c cs ih =>
    unfold splitAux
    split
    · simp
    · exact ih _

theorem mem_keysOf_assign (fs : Fields) (k : String) (v : JSVal) :
    k ∈ keysOf (assign fs k v) := by
  by_contra hc
  have h := lookup_assign k k v fs
  rw [(lookup_eq_none_iff k _).mpr hc] at h
  simp at h

theorem proto_inherited (v : JSVal) (ho : v.isObject = true) :
    "__proto__" ∈ inheritedNames v := by
  cases v <;> simp [JSVal.isObject] at ho <;>
    simp [inheritedNames, objectProtoNames]

theorem caller_inherited (v : JSVal) (k : String) (hf : v.isFn = true)
    (hk : k = "caller" ∨ k = "arguments") : k ∈ inheritedNames v := by
  cases v <;> simp [JSVal.isFn] at hf <;>
    rcases hk with rfl | rfl <;> simp [inheritedNames, functionProtoNames]

theorem setListProp_ok (n : Nat) (ps : Fields) (k : String) (x : JSVal)
    (hlen : k ≠ "length") (hp : ¬ (k = "__proto__" ∧ k ∉ keysOf ps)) :
    ∃ m, setListProp n ps k x = .ok (.listObj m (assign ps k x)) := by
  unfold setListProp
  rw [if_neg hlen, if_neg hp]
  exact ⟨_, rfl⟩

theorem setFnProp_ok (name : String) (arity : Nat) (ps : Fields) (k : String) (x : JSVal)
    (hlen : ¬ (k = "length" ∨ k = "name"))
    (hc : ¬ ((k = "caller" ∨ k = "arguments") ∧ k ∉ keysOf ps))
    (hp : ¬ (k = "__proto__" ∧ k ∉ keysOf ps)) :
    setFnProp name arity ps k x = .ok (.fnObj name arity (assign ps k x)) := by
  unfold setFnProp
  rw [if_neg hlen, if_neg hc, if_neg hp]

theorem setProp_ok (o : JSVal) (k : String) (x : JSVal) (ho : o.isObject = true)
    (hb : builtinMember o k = false) :
    ∃ r, setProp o k x = .ok r ∧ r.isObject = true ∧ builtinMember r k = false ∧
      hasOwn r k = true ∧ readProp r k = x := by
  have hproto := proto_inherited o ho
  simp only [builtinMember, Bool.or_eq_false_iff, Bool.and_eq_false_iff, Bool.not_eq_false',
    decide_eq_false_iff_not, Bool.or_eq_false_iff] at hb
  obtain ⟨⟨hinh, hlist⟩, hfn⟩ := hb
  cases o with
  | obj fs =>
    have hp : ¬ (k = "__proto__" ∧ k ∉ keysOf fs) := by
      rintro ⟨rfl, hnot⟩
      rcases hinh with h | h
      · simp [hasOwn, hnot] at h
      · exact h hproto
    refine ⟨.obj (assign fs k x), by simp [setProp, hp], rfl, ?_, ?_, ?_⟩
    · simp [builtinMember, hasOwn, mem_keysOf_assign, JSVal.isList, JSVal.isFn]
    · simp [hasOwn, mem_keysOf_assign]
    · simp [readProp, lookup_assign]
  | arr xs =>
    have hlen : k ≠ "length" := by
      rcases hlist with h | h
      · simp [JSVal.isList] at h
      · exact h
    have hp : ¬ (k = "__proto__" ∧ k ∉ keysOf (indexedFrom 0 xs)) := by
      rintro ⟨rfl, hnot⟩
      rcases hinh with h | h
      · simp [hasOwn, ownEnum, hnot] at h
      · exact h hproto
    obtain ⟨m, hm⟩ := setListProp_ok xs.length (indexedFrom 0 xs) k x hlen hp
    refine ⟨.listObj m (assign (indexedFrom 0 xs) k x), by simpa [setProp] using hm, rfl,
      ?_, ?_, ?_⟩
    · simp [builtinMember, hasOwn, mem_keysOf_assign, JSVal.isList, JSVal.isFn, hlen]
    · simp [hasOwn, mem_keysOf_assign]
    · simp [readProp, lookup_assign, hlen]
  | listObj n ps =>
    have hlen : k ≠ "length" := by
      rcases hlist with h | h
      · simp [JSVal.isList] at h
      · exact h
    have hp : ¬ (k = "__proto__" ∧ k ∉ keysOf ps) := by
      rintro ⟨rfl, hnot⟩
      rcases hinh with h | h
      · simp [hasOwn, hnot] at h
      · exact h hproto
    obtain ⟨m, hm⟩ := setListProp_ok n ps k x hlen hp
    refine ⟨.listObj m (assign ps k x), by simpa [setProp] using hm, rfl, ?_, ?_, ?_⟩
    · simp [builtinMember, hasOwn, mem_keysOf_assign, JSVal.isList, JSVal.isFn, hlen]
    · simp [hasOwn, mem_keysOf_assign]
    · simp [readProp, lookup_assign, hlen]
  | fn name arity =>
    have hlen : ¬ (k = "length" ∨ k = "name") := by
      rcases hfn with h | h
      · simp [JSVal.isFn] at h
      · simpa [not_or] using h
    have hown : hasOwn (.fn name arity) k = false := by
      simpa [hasOwn, not_or] using hlen
    have hni : k ∉ inheritedNames (.fn name arity) := by
      rcases hinh with h | h
      · rw [hown] at h
        exact absurd h (by decide)
      · exact h
    have hc : ¬ ((k = "caller" ∨ k = "arguments") ∧ k ∉ keysOf ([] : Fields)) :=
      fun h => hni (caller_inherited _ k rfl h.1)
    have hp : ¬ (k = "__proto__" ∧ k ∉ keysOf ([] : Fields)) :=
      fun h => hni (h.1 ▸ hproto)
    refine ⟨.fnObj name arity (assign [] k x),
      by simp [setProp, setFnProp_ok name arity [] k x hlen hc hp], rfl, ?_, ?_, ?_⟩
    · have h1 := not_or.mp hlen
      simp [builtinMember, hasOwn, mem_keysOf_assign, JSVal.isList, JSVal.isFn, h1.1, h1.2]
    · simp [hasOwn, mem_keysOf_assign]
    · have h1 := not_or.mp hlen
      simp [readProp, lookup_assign, h1.1, h1.2]
  | fnObj name arity ps =>
    have hlen : ¬ (k = "length" ∨ k = "name") := by
      rcases hfn with h | h
      · simp [JSVal.isFn] at h
      · simpa [not_or] using h
    have h1 := not_or.mp hlen
    have hmem : k ∉ keysOf ps → k ∉ inheritedNames (.fnObj name arity ps) := by
      intro hnot
      rcases hinh with h | h
      · simp [hasOwn, h1.1, h1.2, hnot] at h
      · exact h
    have hc : ¬ ((k = "caller" ∨ k = "arguments") ∧ k ∉ keysOf ps) :=
      fun h => hmem h.2 (caller_inherited _ k rfl h.1)
    have hp : ¬ (k = "__proto__" ∧ k ∉ keysOf ps) :=
      fun h => hmem h.2 (h.1 ▸ hproto)
    refine ⟨.fnObj name arity (assign ps k x),
      by simp [setProp, setFnProp_ok name arity ps k x hlen hc hp], rfl, ?_, ?_, ?_⟩
    · simp [builtinMember, hasOwn, mem_keysOf_assign, JSVal.isList, JSVal.isFn, h1.1, h1.2]
    · simp [hasOwn, mem_keysOf_assign]
    · simp [readProp, lookup_assign, h1.1, h1.2]
  | undefined => simp [JSVal.isObject] at ho
  | null => simp [JSVal.isObject] at ho
  | bool b => simp [JSVal.isObject] at ho
  | num n => simp [JSVal.isObject] at ho
  | str s0 => simp [JSVal.isObject] at ho
  | surrogate u => simp [JSVal.isObject] at ho

theorem getProp_of_data (o : JSVal) (k : String) (ho : o.isObject = true)
    (hb : builtinMember o k = false) : getProp o k = .ok (readProp o k) := by
  cases hown : hasOwn o k with
  | true => exact getProp_own o k hown
  | false =>
    have hn : o.isNullish = false := by
      cases o <;> simp [JSVal.isObject] at ho <;> rfl
    have hni : k ∉ inheritedNames o := by
      simp only [builtinMember, Bool.or_eq_false_iff, Bool.and_eq_false_iff,
        Bool.not_eq_false', decide_eq_false_iff_not] at hb
      rcases hb.1.1 with h | h
      · rw [hown] at h
        exact absurd h (by decide)
      · exact h
    simp [getProp, hn, hown, hni, readProp_of_not_hasOwn o k hown]

theorem setWalk_get (keys : List String) (o : JSVal) (lastKey : String) (value : JSVal)
    (h : settable o keys lastKey = true) :
    ∃ r, setWalk o keys lastKey value = .ok r ∧ r.isObject = true ∧
      (keys ++ [lastKey]).foldlM (fun obj key => optGet obj key) r = .ok value := by
  induction keys generalizing o with
  | nil =>
    simp only [settable, Bool.and_eq_true, Bool.not_eq_true'] at h
    obtain ⟨r, hr, hobj, _, hown, hread⟩ := setProp_ok o lastKey value h.1 h.2
    refine ⟨r, by simpa [setWalk] using hr, hobj, ?_⟩
    simp [List.foldlM, optGet_own r lastKey hown, hread, pure, Except.pure, bind, Except.bind]
  | cons k ks ih =>
    simp only [settable, Bool.and_eq_true, Bool.not_eq_true'] at h
    obtain ⟨⟨hobj, hb⟩, hrest⟩ := h
    obtain ⟨o1, ho1, hobj1, hb1, _, _⟩ :=
      setProp_ok o k (jsOr (readProp o k) (.obj [])) hobj hb
    obtain ⟨r1, hr1, _, hget1⟩ := ih (jsOr (readProp o k) (.obj [])) hrest
    obtain ⟨o2, ho2, hobj2, _, hown2, hread2⟩ := setProp_ok o1 k r1 hobj1 hb1
    refine ⟨o2, ?_, hobj2, ?_⟩
    · simp [setWalk, getProp_of_data o k hobj hb, ho1, hr1, ho2, bind, Except.bind]
    · rw [List.cons_append, List.foldlM_cons, optGet_own o2 k hown2, hread2]
      exact hget1

/-- C7, counterexample: on a new instance the path `brand.name.first` is absent
(`get` returns `undefined`), its prefix `brand.name` holds the string
`"GetVidai"`, and `set("brand.name.first", "x")` does not complete: the
assignment to a property of a string throws a `TypeError`. -/
theorem set_below_string_throws :
    ∃ cfg, LandingPageConfig.new (.obj []) = .ok cfg ∧
      LandingPageConfig.get cfg "brand.name" = .ok (.str "GetVidai") ∧
      LandingPageConfig.get cfg "brand.name.first" = .ok .undefined ∧
      LandingPageConfig.set cfg "brand.name.first" (.str "x") = .error .typeError :=
  ⟨_, rfl, rfl, rfl, rfl⟩

/-- C7, as amended: `set(P, v)` completes and a following `get(P)` returns `v`
whenever, walking `P` from the configuration root, every value that `set` meets
on the proper prefix of `P` is an object (a mapping, a list or a function) or is
falsy (absent, `undefined`, `null`, `0`, `""`, `false`: it is then replaced by a
new mapping), and no segment of `P` names a built-in member of the node it is
applied to (a member inherited from a built-in prototype such as `__proto__` or
`toString`, the `length` of a list, the `length` or `name` of a function). -/
theorem set_then_get (cfg : JSVal) (P : String) (v : JSVal)
    (h : settable cfg (split P).dropLast ((split P).getLast?.getD "undefined") = true) :
    ∃ cfg1, LandingPageConfig.set cfg P v = .ok cfg1 ∧
      LandingPageConfig.get cfg1 P = .ok v := by
  have hne : split P ≠ [] := split_ne_nil _ _
  have hlast : (split P).getLast?.getD "undefined" = (split P).getLast hne := by
    rw [List.getLast?_eq_getLast _ hne, Option.getD_some]
  rw [hlast] at h
  obtain ⟨r, hr, _, hget⟩ :=
    setWalk_get (split P).dropLast cfg ((split P).getLast hne) v h
  refine ⟨r, ?_, ?_⟩
  · simp only [LandingPageConfig.set, hlast]
    exact hr
  · rw [List.dropLast_append_getLast hne] at hget
    exact hget

/-- Witness of the amended C7: the path `a.b.c`, whose whole prefix is absent; the
path `navigation.links.note.text`, created below the existing list
`navigation.links`; the path `forms.onSubmit.tag`, set on the existing function
`forms.onSubmit`. -/
theorem set_then_get_witness :
    (∃ cfg1, LandingPageConfig.set defaultConfig "a.b.c" (.num 7) = .ok cfg1 ∧
      LandingPageConfig.get cfg1 "a.b.c" = .ok (.num 7)) ∧
    (∃ cfg1, LandingPageConfig.set defaultConfig "navigation.links.note.text" (.str "hi")
        = .ok cfg1 ∧
      LandingPageConfig.get cfg1 "navigation.links.note.text" = .ok (.str "hi")) ∧
    (∃ cfg1, LandingPageConfig.set defaultConfig "forms.onSubmit.tag" (.str "t") = .ok cfg1 ∧
      LandingPageConfig.get cfg1 "forms.onSubmit.tag" = .ok (.str "t")) :=
  ⟨set_then_get defaultConfig "a.b.c" (.num 7) rfl,
   set_then_get defaultConfig "navigation.links.note.text" (.str "hi") rfl,
   set_then_get defaultConfig "forms.onSubmit.tag" (.str "t") rfl⟩

/-! ## Claims on the page binding -/

/-- C8, counterexample: on the instance built from the override
`{theme: {primaryColor: ""}}` the field `theme.primaryColor` is present (`get`
returns the empty string, not `undefined`), and `applyTheme()` leaves
`--primary-500` at its earlier value `#000000` instead of setting it to the
field. -/
theorem applyTheme_empty_color :
    ∃ cfg, LandingPageConfig.new (.obj [("theme", .obj [("primaryColor", .str "")])]) = .ok cfg ∧
      LandingPageConfig.get cfg "theme.primaryColor" = .ok (.str "") ∧
      ∃ style1, LandingPageConfig.applyTheme cfg sampleStyle = .ok style1 ∧
        style1 "--primary-500" = some (.str "#000000") ∧
        style1 "--primary-500" ≠ some (.str "") :=
  ⟨_, rfl, rfl, _, rfl, rfl, fun h => by
    have h1 : JSVal.str "#000000" = JSVal.str "" := Option.some.inj h
    have h2 : ("#000000" : String) = "" := JSVal.str.inj h1
    exact absurd h2 (by decide)⟩

/-- C8, as amended: on a configuration that has a `theme` section, `applyTheme()`
completes; after it `--primary-500` holds `theme.primaryColor` if that value is
truthy and is left exactly as it was if the value is falsy (`undefined`, `null`,
`""`, `0`, `false`); likewise `--primary-700` with `theme.primaryColorDark`; no
other style variable is changed. -/
theorem applyTheme_effect (cfg : JSVal) (style : Style)
    (ht : (readProp cfg "theme").isNullish = false) :
    ∃ style1, LandingPageConfig.applyTheme cfg style = .ok style1 ∧
      style1 "--primary-500"
        = (if (readProp (readProp cfg "theme") "primaryColor").truthy
            then some (readProp (readProp cfg "theme") "primaryColor")
            else style "--primary-500") ∧
      style1 "--primary-700"
        = (if (readProp (readProp cfg "theme") "primaryColorDark").truthy
            then some (readProp (readProp cfg "theme") "primaryColorDark")
            else style "--primary-700") ∧
      ∀ n, n ≠ "--primary-500" → n ≠ "--primary-700" → style1 n = style n := by
  have hc : cfg.isNullish = false := isNullish_of_readProp cfg "theme" ht
  refine ⟨if (readProp (readProp cfg "theme") "primaryColorDark").truthy
      then setProperty
        (if (readProp (readProp cfg "theme") "primaryColor").truthy
          then setProperty style "--primary-500" (readProp (readProp cfg "theme") "primaryColor")
          else style)
        "--primary-700" (readProp (readProp cfg "theme") "primaryColorDark")
      else (if (readProp (readProp cfg "theme") "primaryColor").truthy
          then setProperty style "--primary-500" (readProp (readProp cfg "theme") "primaryColor")
          else style), ?_, ?_, ?_, ?_⟩
  · simp only [LandingPageConfig.applyTheme, getProp_eq cfg "theme" hc (by decide),
      getProp_eq _ "primaryColor" ht (by decide),
      getProp_eq _ "primaryColorDark" ht (by decide), bind, Except.bind, pure, Except.pure]
  · by_cases h1 : (readProp (readProp cfg "theme") "primaryColor").truthy = true <;>
      by_cases h2 : (readProp (readProp cfg "theme") "primaryColorDark").truthy = true <;>
      simp [h1, h2, setProperty]
  · by_cases h1 : (readProp (readProp cfg "theme") "primaryColor").truthy = true <;>
      by_cases h2 : (readProp (readProp cfg "theme") "primaryColorDark").truthy = true <;>
      simp [h1, h2, setProperty]
  · intro n hn1 hn2
    by_cases h1 : (readProp (readProp cfg "theme") "primaryColor").truthy = true <;>
      by_cases h2 : (readProp (readProp cfg "theme") "primaryColorDark").truthy = true <;>
      simp [h1, h2, setProperty, hn1, hn2]

/-- Witness of the amended C8: the default configuration over the sample style. -/
theorem applyTheme_effect_witness :
    ∃ style1, LandingPageConfig.applyTheme defaultConfig sampleStyle = .ok style1 ∧
      style1 "--primary-500" = some (.str "#3b82f6") ∧
      style1 "--primary-700" = some (.str "#2563eb") ∧
      ∀ n, n ≠ "--primary-500" → n ≠ "--primary-700" → style1 n = sampleStyle n :=
  applyTheme_effect defaultConfig sampleStyle rfl

/-- C9, counterexample: a click on an anchor whose `href` is `#missing`, in a page
where no element matches, calls `preventDefault` (and requests no scroll). -/
theorem smoothScrollClick_missing_target :
    smoothScrollClick emptyPage (some "#missing") = ⟨true, none, false⟩ ∧
    (smoothScrollClick emptyPage (some "#missing")).defaultPrevented ≠ false :=
  ⟨rfl, by decide⟩

/-- C9, as amended: the click handler does nothing at all when the `href` of the
anchor is `#` or empty (the default action is not prevented, no scroll is
requested).  For any other `href` it prevents the default action, whatever the
lookup of the target gives: when `document.querySelector(href)` finds no element
no scroll is requested; when it returns an element a scroll to the `offsetTop`
of that element minus 80 is requested; when it throws, because `href` is not a
valid selector, the handler ends with that exception and no scroll is
requested. -/
theorem smoothScrollClick_effect (page : Page) (href : String) :
    ((href = "#" ∨ href = "") → smoothScrollClick page (some href) = ⟨false, none, false⟩) ∧
    (href ≠ "#" → href ≠ "" →
      (smoothScrollClick page (some href)).defaultPrevented = true) ∧
    (href ≠ "#" → href ≠ "" → page.querySelector href = .ok none →
      smoothScrollClick page (some href) = ⟨true, none, false⟩) ∧
    (∀ offsetTop : Int, href ≠ "#" → href ≠ "" →
      page.querySelector href = .ok (some offsetTop) →
      smoothScrollClick page (some href) = ⟨true, some (offsetTop - 80), false⟩) ∧
    (∀ e : JSErr, href ≠ "#" → href ≠ "" → page.querySelector href = .error e →
      smoothScrollClick page (some href) = ⟨true, none, true⟩) := by
  refine ⟨?_, ?_, ?_, ?_, ?_⟩
  · rintro (h | h) <;> simp [smoothScrollClick, h]
  · intro h1 h2
    cases hq : page.querySelector href with
    | error e => simp [smoothScrollClick, h1, h2, hq]
    | ok r =>
      cases r with
      | none => simp [smoothScrollClick, h1, h2, hq]
      | some t => simp [smoothScrollClick, h1, h2, hq]
  · intro h1 h2 hq
    simp [smoothScrollClick, h1, h2, hq]
  · intro t h1 h2 hq
    simp [smoothScrollClick, h1, h2, hq]
  · intro e h1 h2 hq
    simp [smoothScrollClick, h1, h2, hq]

/-- Witness of the amended C9: the bare fragment, a target at offset 500, and a
`href` that is not a valid selector. -/
theorem smoothScrollClick_effect_witness :
    smoothScrollClick emptyPage (some "#") = ⟨false, none, false⟩ ∧
    smoothScrollClick ⟨fun _ => .ok (some 500)⟩ (some "#features") = ⟨true, some 420, false⟩ ∧
    smoothScrollClick ⟨fun _ => .error .syntaxError⟩ (some "#123") = ⟨true, none, true⟩ :=
  ⟨(smoothScrollClick_effect emptyPage "#").1 (Or.inl rfl),
   (smoothScrollClick_effect ⟨fun _ => .ok (some 500)⟩ "#features").2.2.2.1 500
     (by decide) (by decide) rfl,
   (smoothScrollClick_effect ⟨fun _ => .error .syntaxError⟩ "#123").2.2.2.2 .syntaxError
     (by decide) (by decide) rfl⟩

/-! ## Property tables: key order and extensionality -/

theorem keysOf_assign (fs : Fields) (k : String) (v : JSVal) :
    keysOf (assign fs k v) = addKey (keysOf fs) k := by
  by_cases hk : k ∈ keysOf fs
  · have h1 : assign fs k v = fs.map (fun p => if p.1 = k then (p.1, v) else p) := by
      simp [assign, hk]
    have h2 : addKey (keysOf fs) k = keysOf fs := by simp [addKey, hk]
    rw [h1, h2]
    simp only [keysOf, List.map_map]
    apply List.map_congr_left
    intro p _
    by_cases hp : p.1 = k <;> simp [hp]
  · have h1 : assign fs k v = fs ++ [(k, v)] := by simp [assign, hk]
    have h2 : addKey (keysOf fs) k = keysOf fs ++ [k] := by simp [addKey, hk]
    rw [h1, h2]
    simp [keysOf]

theorem keysOf_append (a b : Fields) : keysOf (a ++ b) = keysOf a ++ keysOf b := by
  simp [keysOf]

theorem keysOf_foldl_assign (es acc : Fields) :
    keysOf (es.foldl (fun a p => assign a p.1 p.2) acc)
      = (keysOf es).foldl addKey (keysOf acc) := by
  induction es generalizing acc with
  | nil => rfl
  | cons p es ih =>
    simp only [List.foldl_cons, ih, keysOf_assign]
    simp [keysOf]

theorem keysOf_objLit (es : Fields) : keysOf (objLit es) = (keysOf es).foldl addKey [] := by
  unfold objLit
  rw [keysOf_foldl_assign]
  rfl

theorem foldl_addKey_nodup (l acc : List String) (h : acc.Nodup) :
    (l.foldl addKey acc).Nodup := by
  induction l generalizing acc with
  | nil => exact h
  | cons k l ih =>
    apply ih
    unfold addKey
    by_cases hk : k ∈ acc
    · simpa [hk] using h
    · simp only [hk, if_false]
      exact List.nodup_append.mpr ⟨h, List.nodup_singleton k, by
        intro x hx hx1
        simp only [List.mem_singleton] at hx1
        exact hk (hx1 ▸ hx)⟩

theorem mem_foldl_addKey (l acc : List String) (x : String) :
    x ∈ l.foldl addKey acc ↔ x ∈ acc ∨ x ∈ l := by
  induction l generalizing acc with
  | nil => simp
  | cons k l ih =>
    rw [List.foldl_cons, ih]
    unfold addKey
    by_cases hk : k ∈ acc
    · simp only [hk, if_true, List.mem_cons]
      constructor
      · rintro (h | h)
        · exact Or.inl h
        · exact Or.inr (Or.inr h)
      · rintro (h | h | h)
        · exact Or.inl h
        · exact Or.inl (h ▸ hk)
        · exact Or.inr h
    · simp only [hk, if_false, List.mem_append, List.mem_singleton, List.mem_cons]
      tauto

theorem foldl_addKey_subset (l acc : List String) (h : ∀ x ∈ l, x ∈ acc) :
    l.foldl addKey acc = acc := by
  induction l with
  | nil => rfl
  | cons k l ih =>
    have hk : k ∈ acc := h k (List.mem_cons_self k l)
    simp only [List.foldl_cons, addKey, hk, if_true]
    exact ih (fun x hx => h x (List.mem_cons_of_mem k hx))

theorem foldl_addKey_fresh (n acc : List String) (h : (acc ++ n).Nodup) :
    n.foldl addKey acc = acc ++ n := by
  induction n generalizing acc with
  | nil => simp
  | cons k n ih =>
    have hk : k ∉ acc := by
      intro hk
      have := List.nodup_append.mp h
      exact this.2.2 hk (List.mem_cons_self k n)
    simp only [List.foldl_cons, addKey, hk, if_false]
    rw [ih (acc ++ [k]) (by simpa using h)]
    simp

theorem foldl_addKey_extends (l acc : List String) :
    ∃ n, l.foldl addKey acc = acc ++ n := by
  induction l generalizing acc with
  | nil => exact ⟨[], by simp⟩
  | cons k l ih =>
    rw [List.foldl_cons]
    by_cases hk : k ∈ acc
    · have h1 : addKey acc k = acc := by simp [addKey, hk]
      rw [h1]
      exact ih acc
    · have h1 : addKey acc k = acc ++ [k] := by simp [addKey, hk]
      rw [h1]
      obtain ⟨n, hn⟩ := ih (acc ++ [k])
      exact ⟨k :: n, by rw [hn]; simp⟩

theorem foldl_addKey_absorb (ka kr kt : List String)
    (ht : ∀ x ∈ kt, x ∈ ka ∨ x ∈ kr) :
    (ka ++ (ka ++ kr).foldl addKey [] ++ kt).foldl addKey [] = (ka ++ kr).foldl addKey [] := by
  have hA : (ka.foldl addKey []).Nodup := foldl_addKey_nodup ka [] List.nodup_nil
  obtain ⟨n, hn⟩ := foldl_addKey_extends kr (ka.foldl addKey [])
  have hR : (ka ++ kr).foldl addKey [] = ka.foldl addKey [] ++ n := by
    rw [List.foldl_append, hn]
  have hRnodup : (ka.foldl addKey [] ++ n).Nodup := by
    rw [← hR]
    exact foldl_addKey_nodup _ [] List.nodup_nil
  rw [List.foldl_append, List.foldl_append, hR, List.foldl_append,
    foldl_addKey_subset (ka.foldl addKey []) (ka.foldl addKey []) (fun x hx => hx),
    foldl_addKey_fresh n _ hRnodup]
  apply foldl_addKey_subset
  intro x hx
  have : x ∈ (ka ++ kr).foldl addKey [] := by
    rw [mem_foldl_addKey]
    right
    rcases ht x hx with h | h
    · exact List.mem_append_left _ h
    · exact List.mem_append_right _ h
  rwa [hR] at this

theorem fields_ext (a b : Fields) (hk : keysOf a = keysOf b) (hn : (keysOf a).Nodup)
    (hl : ∀ k, lookup k a = lookup k b) : a = b := by
  induction a generalizing b with
  | nil =>
    cases b with
    | nil => rfl
    | cons q b => simp [keysOf] at hk
  | cons p a ih =>
    cases b with
    | nil => simp [keysOf] at hk
    | cons q b =>
      obtain ⟨k1, v1⟩ := p
      obtain ⟨k2, v2⟩ := q
      simp only [keysOf, List.map_cons, List.cons.injEq] at hk
      obtain ⟨hk12, hkeys⟩ := hk
      subst hk12
      simp only [keysOf, List.map_cons, List.nodup_cons] at hn
      have ha : lookup k1 a = none := (lookup_eq_none_iff k1 a).mpr hn.1
      have hb : lookup k1 b = none :=
        (lookup_eq_none_iff k1 b).mpr (by simpa [keysOf, ← hkeys] using hn.1)
      have hv : v1 = v2 := by
        have := hl k1
        simpa [lookup_cons, ha, hb] using this
      subst hv
      have htail : a = b := by
        apply ih b hkeys hn.2
        intro k
        by_cases hkk : k1 = k
        · subst hkk
          rw [ha, hb]
        · have := hl k
          simpa [lookup_cons, hkk] using this
      rw [htail]

theorem lookup_isSome_of_mem (k : String) (fs : Fields) (h : k ∈ keysOf fs) :
    ∃ v, lookup k fs = some v := by
  cases hl : lookup k fs with
  | some v => exact ⟨v, rfl⟩
  | none => exact absurd h ((lookup_eq_none_iff k fs).mp hl)

theorem objLit_absorb (a r t : Fields)
    (ht : ∀ k ∈ keysOf t, lookup k t = lookup k (a ++ r)) :
    objLit (a ++ objLit (a ++ r) ++ t) = objLit (a ++ r) := by
  apply fields_ext
  · rw [keysOf_objLit, keysOf_objLit, keysOf_append, keysOf_append, keysOf_objLit,
      keysOf_append]
    apply foldl_addKey_absorb
    intro x hx
    obtain ⟨v, hv⟩ := lookup_isSome_of_mem x t hx
    have h1 : lookup x (a ++ r) = some v := by rw [← ht x hx, hv]
    have h2 : x ∈ keysOf (a ++ r) := by
      by_contra hc
      rw [(lookup_eq_none_iff x _).mpr hc] at h1
      exact absurd h1 (by simp)
    rw [keysOf_append] at h2
    exact List.mem_append.mp h2
  · rw [keysOf_objLit]
    exact foldl_addKey_nodup _ [] List.nodup_nil
  · intro k
    simp only [lookup_objLit, lookup_append]
    cases hkt : lookup k t with
    | some v =>
      have hmem : k ∈ keysOf t := by
        by_contra hc
        rw [(lookup_eq_none_iff k t).mpr hc] at hkt
        exact absurd hkt (by simp)
      have := ht k hmem
      rw [hkt, lookup_append] at this
      simp [← this]
    | none =>
      cases lookup k r <;> cases lookup k a <;> simp

/-! ## Merging a merged configuration again -/

theorem readProp_merged_brand (B O : JSVal) :
    readProp (merged B O) "brand" = spread2 (readProp B "brand") (readProp O "brand") := by
  rw [readProp_merged]
  simp [mergedSections, lookup_cons, lookup]

theorem readProp_merged_howItWorks (B O : JSVal) :
    readProp (merged B O) "howItWorks"
      = spread2 (readProp B "howItWorks") (readProp O "howItWorks") := by
  rw [readProp_merged]
  simp [mergedSections, lookup_cons, lookup]

theorem readProp_merged_footer (B O : JSVal) :
    readProp (merged B O) "footer" = spread2 (readProp B "footer") (readProp O "footer") := by
  rw [readProp_merged]
  simp [mergedSections, lookup_cons, lookup]

theorem readProp_merged_meta (B O : JSVal) :
    readProp (merged B O) "meta" = spread2 (readProp B "meta") (readProp O "meta") := by
  rw [readProp_merged]
  simp [mergedSections, lookup_cons, lookup]

theorem readProp_merged_forms (B O : JSVal) :
    readProp (merged B O) "forms" = spread2 (readProp B "forms") (readProp O "forms") := by
  rw [readProp_merged]
  simp [mergedSections, lookup_cons, lookup]

theorem lookup_append_of_mem (k : String) (x t : Fields) (h : k ∈ keysOf t) :
    lookup k t = lookup k (x ++ t) := by
  obtain ⟨v, hv⟩ := lookup_isSome_of_mem k t h
  rw [lookup_append, hv, Option.or_some]

theorem objLit_absorb_tail (a c t : Fields) :
    objLit (a ++ objLit (a ++ c ++ t) ++ t) = objLit (a ++ c ++ t) := by
  have h := objLit_absorb a (c ++ t) t (fun k hk => by
    rw [← List.append_assoc]
    exact lookup_append_of_mem k (a ++ c) t hk)
  rw [← List.append_assoc] at h
  exact h

theorem ownEnum_obj (fs : Fields) : ownEnum (.obj fs) = fs := rfl

theorem spread2_idem (a b : JSVal) : spread2 a (spread2 a b) = spread2 a b := by
  have h := objLit_absorb_tail (ownEnum a) (ownEnum b) []
  simp only [List.append_nil] at h
  simp only [spread2, ownEnum_obj]
  rw [h]

theorem mergedSections_idem (B O : JSVal) :
    mergedSections B (merged B O) = mergedSections B O := by
  unfold mergedSections
  rw [readProp_merged_hero_title, readProp_merged_hero_badge, readProp_merged_cta_form,
    readProp_merged_brand, readProp_merged_theme, readProp_merged_navigation,
    readProp_merged_hero, readProp_merged_features, readProp_merged_howItWorks,
    readProp_merged_cta, readProp_merged_footer, readProp_merged_meta, readProp_merged_forms]
  simp only [spread2_idem, ownEnum_obj, objLit_absorb_tail]

theorem merged_idem (B O : JSVal) : merged B (merged B O) = merged B O := by
  rw [merged, mergedSections_idem]
  have h : ownEnum (merged B O) = objLit (ownEnum B ++ ownEnum O ++ mergedSections B O) := rfl
  rw [h, objLit_absorb_tail]
  rfl

/-- C10: for a base configuration `B` that has `hero` and `cta` sections and every
override `O`, merging the result of `mergeConfig(B, O)` into `B` again gives the
same configuration: the two results are equal as nested property tables, so they
have the same keys and the same values at every level. -/
theorem mergeConfig_idempotent (B O : JSVal) (hO : O.isNullish = false)
    (hh : (readProp B "hero").isNullish = false)
    (hcta : (readProp B "cta").isNullish = false) :
    ∃ M, mergeConfig B O = .ok M ∧ mergeConfig B M = .ok M := by
  refine ⟨merged B O, mergeConfig_eq B O hO hh hcta, ?_⟩
  rw [mergeConfig_eq B (merged B O) rfl hh hcta, merged_idem]

/-- Witness of C10: the product page and the feature page configurations, both
built by spreading the default configuration, merged into it once and twice. -/
theorem mergeConfig_idempotent_witness :
    (∃ M, mergeConfig defaultConfig productPageConfig = .ok M ∧
      mergeConfig defaultConfig M = .ok M) ∧
    (∃ M, mergeConfig defaultConfig featurePageConfig = .ok M ∧
      mergeConfig defaultConfig M = .ok M) :=
  ⟨mergeConfig_idempotent defaultConfig productPageConfig rfl rfl rfl,
   mergeConfig_idempotent defaultConfig featurePageConfig rfl rfl rfl⟩

/-! ## Default fields survive the merge -/

theorem ownPath_single (v : JSVal) (k : String) : ownPath v [k] = lookup k (ownEnum v) := by
  simp only [ownPath]
  cases lookup k (ownEnum v) <;> rfl

theorem ownPath_cons_of_lookup (v x : JSVal) (k : String) (ks : List String)
    (h : lookup k (ownEnum v) = some x) : ownPath v (k :: ks) = ownPath x ks := by
  simp only [ownPath, h]

theorem readProp_of_own_none (v : JSVal) (k : String) (h1 : k ≠ "length") (h2 : k ≠ "name")
    (h : lookup k (ownEnum v) = none) : readProp v k = .undefined := by
  rw [readProp_eq_own v k h1 h2, h]
  rfl

theorem readProp_of_own_some (v x : JSVal) (k : String) (h1 : k ≠ "length") (h2 : k ≠ "name")
    (h : lookup k (ownEnum v) = some x) : readProp v k = x := by
  rw [readProp_eq_own v k h1 h2, h]
  rfl

theorem own_none_step (O : JSVal) (k k1 : String) (ks : List String)
    (h1 : k ≠ "length") (h2 : k ≠ "name") (h : ownPath O (k :: k1 :: ks) = none) :
    ownPath (readProp O k) (k1 :: ks) = none := by
  cases hl : lookup k (ownEnum O) with
  | none =>
    rw [readProp_of_own_none O k h1 h2 hl]
    rfl
  | some x =>
    rw [readProp_of_own_some O x k h1 h2 hl]
    rw [ownPath_cons_of_lookup O x k _ hl] at h
    exact h

theorem lookup_merged_section (B O : JSVal) (s : String) (hs : s ∈ sectionNames) :
    lookup s (ownEnum (merged B O)) = some (readProp (merged B O) s) := by
  have hmem : s ∈ keysOf (mergedSections B O) := by
    simpa [mergedSections, keysOf, sectionNames] using hs
  obtain ⟨v, hv⟩ := lookup_isSome_of_mem s _ hmem
  have h0 : ownEnum (merged B O) = objLit (ownEnum B ++ ownEnum O ++ mergedSections B O) := rfl
  rw [readProp_merged, h0, lookup_objLit, lookup_append, hv]
  simp

theorem ownPath_merged (B O : JSVal) (s : String) (ks : List String)
    (hs : s ∈ sectionNames) :
    ownPath (merged B O) (s :: ks) = ownPath (readProp (merged B O) s) ks :=
  ownPath_cons_of_lookup _ _ s ks (lookup_merged_section B O s hs)

theorem ownPath_spread2_single (a b : JSVal) (k : String) :
    ownPath (spread2 a b) [k] = (lookup k (ownEnum b)).or (lookup k (ownEnum a)) := by
  rw [ownPath_single]
  simp [spread2, ownEnum, lookup_objLit, lookup_append]

theorem default_top_level (O : JSVal) (s : String) (hs : s ∈ sectionNames)
    (hnot : ownPath O [s] = none) :
    ∃ v, ownPath defaultConfig [s] = some v ∧ ownPath (merged defaultConfig O) [s] = some v := by
  rw [ownPath_single] at hnot
  rw [ownPath_merged defaultConfig O s [] hs]
  simp only [sectionNames, List.mem_cons, List.mem_singleton, List.not_mem_nil, or_false] at hs
  rcases hs with rfl | rfl | rfl | rfl | rfl | rfl | rfl | rfl | rfl | rfl
  · rw [readProp_merged_brand,
      readProp_of_own_none O "brand" (by decide) (by decide) hnot]
    exact ⟨_, rfl, rfl⟩
  · rw [readProp_merged_theme,
      readProp_of_own_none O "theme" (by decide) (by decide) hnot]
    exact ⟨_, rfl, rfl⟩
  · rw [readProp_merged_navigation,
      readProp_of_own_none O "navigation" (by decide) (by decide) hnot]
    exact ⟨_, rfl, rfl⟩
  · rw [readProp_merged_hero,
      readProp_of_own_none O "hero" (by decide) (by decide) hnot]
    exact ⟨_, rfl, rfl⟩
  · rw [readProp_merged_features,
      readProp_of_own_none O "features" (by decide) (by decide) hnot]
    exact ⟨_, rfl, rfl⟩
  · rw [readProp_merged_howItWorks,
      readProp_of_own_none O "howItWorks" (by decide) (by decide) hnot]
    exact ⟨_, rfl, rfl⟩
  · rw [readProp_merged_cta,
      readProp_of_own_none O "cta" (by decide) (by decide) hnot]
    exact ⟨_, rfl, rfl⟩
  · rw [readProp_merged_footer,
      readProp_of_own_none O "footer" (by decide) (by decide) hnot]
    exact ⟨_, rfl, rfl⟩
  · rw [readProp_merged_meta,
      readProp_of_own_none O "meta" (by decide) (by decide) hnot]
    exact ⟨_, rfl, rfl⟩
  · rw [readProp_merged_forms,
      readProp_of_own_none O "forms" (by decide) (by decide) hnot]
    exact ⟨_, rfl, rfl⟩

theorem plain_field (B O : JSVal) (s k : String) (hs : s ∈ sectionNames)
    (hm : readProp (merged B O) s = spread2 (readProp B s) (readProp O s))
    (hs1 : s ≠ "length") (hs2 : s ≠ "name") (hnot : ownPath O [s, k] = none) :
    ownPath (merged B O) [s, k] = lookup k (ownEnum (readProp B s)) := by
  have h := own_none_step O s k [] hs1 hs2 hnot
  rw [ownPath_single] at h
  rw [ownPath_merged B O s [k] hs, hm, ownPath_spread2_single, h, Option.none_or]

theorem lookup_hero_title (B O : JSVal) :
    lookup "title" (ownEnum (readProp (merged B O) "hero"))
      = some (spread2 (readProp (readProp B "hero") "title")
          (readProp (readProp O "hero") "title")) := by
  rw [readProp_merged_hero]
  simp [ownEnum_obj, lookup_objLit, lookup_append, lookup_cons, lookup]

theorem lookup_hero_badge (B O : JSVal) :
    lookup "badge" (ownEnum (readProp (merged B O) "hero"))
      = some (spread2 (readProp (readProp B "hero") "badge")
          (readProp (readProp O "hero") "badge")) := by
  rw [readProp_merged_hero]
  simp [ownEnum_obj, lookup_objLit, lookup_append, lookup_cons, lookup]

theorem lookup_cta_form (B O : JSVal) :
    lookup "form" (ownEnum (readProp (merged B O) "cta"))
      = some (spread2 (readProp (readProp B "cta") "form")
          (readProp (readProp O "cta") "form")) := by
  rw [readProp_merged_cta]
  simp [ownEnum_obj, lookup_objLit, lookup_append, lookup_cons, lookup]

theorem hero_field_other (B O : JSVal) (k : String) (hk1 : k ≠ "title") (hk2 : k ≠ "badge")
    (hnot : ownPath O ["hero", k] = none) :
    ownPath (merged B O) ["hero", k] = lookup k (ownEnum (readProp B "hero")) := by
  have h := own_none_step O "hero" k [] (by decide) (by decide) hnot
  rw [ownPath_single] at h
  have hk1a : ¬ "title" = k := fun e => hk1 e.symm
  have hk2a : ¬ "badge" = k := fun e => hk2 e.symm
  rw [ownPath_merged B O "hero" [k] (by decide), ownPath_single, readProp_merged_hero]
  simp [ownEnum_obj, lookup_objLit, lookup_append, lookup_cons, lookup, h, hk1a, hk2a]

theorem cta_field_other (B O : JSVal) (k : String) (hk1 : k ≠ "form")
    (hnot : ownPath O ["cta", k] = none) :
    ownPath (merged B O) ["cta", k] = lookup k (ownEnum (readProp B "cta")) := by
  have h := own_none_step O "cta" k [] (by decide) (by decide) hnot
  rw [ownPath_single] at h
  have hk1a : ¬ "form" = k := fun e => hk1 e.symm
  rw [ownPath_merged B O "cta" [k] (by decide), ownPath_single, readProp_merged_cta]
  simp [ownEnum_obj, lookup_objLit, lookup_append, lookup_cons, lookup, h, hk1a]

theorem hero_title_whole (B O : JSVal) (hnot : ownPath O ["hero", "title"] = none) :
    ownPath (merged B O) ["hero", "title"]
      = some (spread2 (readProp (readProp B "hero") "title") .undefined) := by
  have h := own_none_step O "hero" "title" [] (by decide) (by decide) hnot
  rw [ownPath_single] at h
  rw [ownPath_merged B O "hero" _ (by decide), ownPath_single, lookup_hero_title,
    readProp_of_own_none _ "title" (by decide) (by decide) h]

theorem hero_badge_whole (B O : JSVal) (hnot : ownPath O ["hero", "badge"] = none) :
    ownPath (merged B O) ["hero", "badge"]
      = some (spread2 (readProp (readProp B "hero") "badge") .undefined) := by
  have h := own_none_step O "hero" "badge" [] (by decide) (by decide) hnot
  rw [ownPath_single] at h
  rw [ownPath_merged B O "hero" _ (by decide), ownPath_single, lookup_hero_badge,
    readProp_of_own_none _ "badge" (by decide) (by decide) h]

theorem cta_form_whole (B O : JSVal) (hnot : ownPath O ["cta", "form"] = none) :
    ownPath (merged B O) ["cta", "form"]
      = some (spread2 (readProp (readProp B "cta") "form") .undefined) := by
  have h := own_none_step O "cta" "form" [] (by decide) (by decide) hnot
  rw [ownPath_single] at h
  rw [ownPath_merged B O "cta" _ (by decide), ownPath_single, lookup_cta_form,
    readProp_of_own_none _ "form" (by decide) (by decide) h]

theorem hero_title_field (B O : JSVal) (k : String)
    (hnot : ownPath O ["hero", "title", k] = none) :
    ownPath (merged B O) ["hero", "title", k]
      = lookup k (ownEnum (readProp (readProp B "hero") "title")) := by
  have h := own_none_step _ "title" k [] (by decide) (by decide)
    (own_none_step O "hero" "title" [k] (by decide) (by decide) hnot)
  rw [ownPath_single] at h
  rw [ownPath_merged B O "hero" _ (by decide),
    ownPath_cons_of_lookup _ _ "title" [k] (lookup_hero_title B O), ownPath_spread2_single, h,
    Option.none_or]

theorem hero_badge_field (B O : JSVal) (k : String)
    (hnot : ownPath O ["hero", "badge", k] = none) :
    ownPath (merged B O) ["hero", "badge", k]
      = lookup k (ownEnum (readProp (readProp B "hero") "badge")) := by
  have h := own_none_step _ "badge" k [] (by decide) (by decide)
    (own_none_step O "hero" "badge" [k] (by decide) (by decide) hnot)
  rw [ownPath_single] at h
  rw [ownPath_merged B O "hero" _ (by decide),
    ownPath_cons_of_lookup _ _ "badge" [k] (lookup_hero_badge B O), ownPath_spread2_single, h,
    Option.none_or]

theorem cta_form_field (B O : JSVal) (k : String)
    (hnot : ownPath O ["cta", "form", k] = none) :
    ownPath (merged B O) ["cta", "form", k]
      = lookup k (ownEnum (readProp (readProp B "cta") "form")) := by
  have h := own_none_step _ "form" k [] (by decide) (by decide)
    (own_none_step O "cta" "form" [k] (by decide) (by decide) hnot)
  rw [ownPath_single] at h
  rw [ownPath_merged B O "cta" _ (by decide),
    ownPath_cons_of_lookup _ _ "form" [k] (lookup_cta_form B O), ownPath_spread2_single, h,
    Option.none_or]

theorem default_section_field (O : JSVal) (s k : String) (hs : s ∈ sectionNames)
    (hk : k ∈ keysOf (ownEnum (readProp defaultConfig s)))
    (hnot : ownPath O [s, k] = none) :
    ∃ v, ownPath defaultConfig [s, k] = some v ∧
      ownPath (merged defaultConfig O) [s, k] = some v := by
  simp only [sectionNames, List.mem_cons, List.mem_singleton, List.not_mem_nil, or_false] at hs
  rcases hs with rfl | rfl | rfl | rfl | rfl | rfl | rfl | rfl | rfl | rfl
  · obtain ⟨v, hv⟩ := lookup_isSome_of_mem k _ hk
    refine ⟨v, ?_, ?_⟩
    · rw [ownPath_cons_of_lookup defaultConfig (readProp defaultConfig "brand") "brand" [k] rfl,
        ownPath_single]
      exact hv
    · rw [plain_field defaultConfig O "brand" k (by decide) (readProp_merged_brand _ _)
        (by decide) (by decide) hnot]
      exact hv
  · obtain ⟨v, hv⟩ := lookup_isSome_of_mem k _ hk
    refine ⟨v, ?_, ?_⟩
    · rw [ownPath_cons_of_lookup defaultConfig (readProp defaultConfig "theme") "theme" [k] rfl,
        ownPath_single]
      exact hv
    · rw [plain_field defaultConfig O "theme" k (by decide) (readProp_merged_theme _ _)
        (by decide) (by decide) hnot]
      exact hv
  · obtain ⟨v, hv⟩ := lookup_isSome_of_mem k _ hk
    refine ⟨v, ?_, ?_⟩
    · rw [ownPath_cons_of_lookup defaultConfig (readProp defaultConfig "navigation") "navigation" [k] rfl,
        ownPath_single]
      exact hv
    · rw [plain_field defaultConfig O "navigation" k (by decide) (readProp_merged_navigation _ _)
        (by decide) (by decide) hnot]
      exact hv
  · by_cases h1 : k = "title"
    · subst h1
      exact ⟨_, rfl, by rw [hero_title_whole _ _ hnot]; rfl⟩
    · by_cases h2 : k = "badge"
      · subst h2
        exact ⟨_, rfl, by rw [hero_badge_whole _ _ hnot]; rfl⟩
      · obtain ⟨v, hv⟩ := lookup_isSome_of_mem k _ hk
        refine ⟨v, ?_, ?_⟩
        · rw [ownPath_cons_of_lookup defaultConfig (readProp defaultConfig "hero") "hero" [k] rfl,
            ownPath_single]
          exact hv
        · rw [hero_field_other defaultConfig O k h1 h2 hnot]
          exact hv
  · obtain ⟨v, hv⟩ := lookup_isSome_of_mem k _ hk
    refine ⟨v, ?_, ?_⟩
    · rw [ownPath_cons_of_lookup defaultConfig (readProp defaultConfig "features") "features" [k] rfl,
        ownPath_single]
      exact hv
    · rw [plain_field defaultConfig O "features" k (by decide) (readProp_merged_features _ _)
        (by decide) (by decide) hnot]
      exact hv
  · obtain ⟨v, hv⟩ := lookup_isSome_of_mem k _ hk
    refine ⟨v, ?_, ?_⟩
    · rw [ownPath_cons_of_lookup defaultConfig (readProp defaultConfig "howItWorks") "howItWorks" [k] rfl,
        ownPath_single]
      exact hv
    · rw [plain_field defaultConfig O "howItWorks" k (by decide) (readProp_merged_howItWorks _ _)
        (by decide) (by decide) hnot]
      exact hv
  · by_cases h1 : k = "form"
    · subst h1
      exact ⟨_, rfl, by rw [cta_form_whole _ _ hnot]; rfl⟩
    · obtain ⟨v, hv⟩ := lookup_isSome_of_mem k _ hk
      refine ⟨v, ?_, ?_⟩
      · rw [ownPath_cons_of_lookup defaultConfig (readProp defaultConfig "cta") "cta" [k] rfl,
          ownPath_single]
        exact hv
      · rw [cta_field_other defaultConfig O k h1 hnot]
        exact hv
  · obtain ⟨v, hv⟩ := lookup_isSome_of_mem k _ hk
    refine ⟨v, ?_, ?_⟩
    · rw [ownPath_cons_of_lookup defaultConfig (readProp defaultConfig "footer") "footer" [k] rfl,
        ownPath_single]
      exact hv
    · rw [plain_field defaultConfig O "footer" k (by decide) (readProp_merged_footer _ _)
        (by decide) (by decide) hnot]
      exact hv
  · obtain ⟨v, hv⟩ := lookup_isSome_of_mem k _ hk
    refine ⟨v, ?_, ?_⟩
    · rw [ownPath_cons_of_lookup defaultConfig (readProp defaultConfig "meta") "meta" [k] rfl,
        ownPath_single]
      exact hv
    · rw [plain_field defaultConfig O "meta" k (by decide) (readProp_merged_meta _ _)
        (by decide) (by decide) hnot]
      exact hv
  · obtain ⟨v, hv⟩ := lookup_isSome_of_mem k _ hk
    refine ⟨v, ?_, ?_⟩
    · rw [ownPath_cons_of_lookup defaultConfig (readProp defaultConfig "forms") "forms" [k] rfl,
        ownPath_single]
      exact hv
    · rw [plain_field defaultConfig O "forms" k (by decide) (readProp_merged_forms _ _)
        (by decide) (by decide) hnot]
      exact hv

theorem default_sub_field (O : JSVal) (a b k : String)
    (hab : (a, b) ∈ [("hero", "title"), ("hero", "badge"), ("cta", "form")])
    (hk : k ∈ keysOf (ownEnum (readProp (readProp defaultConfig a) b)))
    (hnot : ownPath O [a, b, k] = none) :
    ∃ v, ownPath defaultConfig [a, b, k] = some v ∧
      ownPath (merged defaultConfig O) [a, b, k] = some v := by
  obtain ⟨v, hv⟩ := lookup_isSome_of_mem k _ hk
  simp only [List.mem_cons, Prod.mk.injEq, List.mem_singleton, List.not_mem_nil, or_false] at hab
  rcases hab with ⟨rfl, rfl⟩ | ⟨rfl, rfl⟩ | ⟨rfl, rfl⟩
  · refine ⟨v, ?_, ?_⟩
    · rw [ownPath_cons_of_lookup defaultConfig (readProp defaultConfig "hero") "hero" _ rfl,
        ownPath_cons_of_lookup (readProp defaultConfig "hero")
          (readProp (readProp defaultConfig "hero") "title") "title" _ rfl,
        ownPath_single]
      exact hv
    · rw [hero_title_field defaultConfig O k hnot]
      exact hv
  · refine ⟨v, ?_, ?_⟩
    · rw [ownPath_cons_of_lookup defaultConfig (readProp defaultConfig "hero") "hero" _ rfl,
        ownPath_cons_of_lookup (readProp defaultConfig "hero")
          (readProp (readProp defaultConfig "hero") "badge") "badge" _ rfl,
        ownPath_single]
      exact hv
    · rw [hero_badge_field defaultConfig O k hnot]
      exact hv
  · refine ⟨v, ?_, ?_⟩
    · rw [ownPath_cons_of_lookup defaultConfig (readProp defaultConfig "cta") "cta" _ rfl,
        ownPath_cons_of_lookup (readProp defaultConfig "cta")
          (readProp (readProp defaultConfig "cta") "form") "form" _ rfl,
        ownPath_single]
      exact hv
    · rw [cta_form_field defaultConfig O k hnot]
      exact hv

theorem keysOf_defaultConfig : keysOf (ownEnum defaultConfig) = sectionNames := rfl

/-- C1: for every override object `O` and every field of `defaultConfig` reached
through nested mappings (a top-level key, a key of one of the ten sections, a key
of `hero.title`, `hero.badge` or `cta.form`) whose path `O` does not set, the
configuration `mergeConfig(defaultConfig, O)` has that field with the value it has
in `defaultConfig`. -/
theorem mergeConfig_keeps_defaults (O : JSVal) (hO : O.isNullish = false) (p : List String)
    (hp : p ∈ defaultFieldPaths) (hnot : ownPath O p = none) :
    ∃ M, mergeConfig defaultConfig O = .ok M ∧
      ∃ v, ownPath defaultConfig p = some v ∧ ownPath M p = some v := by
  refine ⟨merged defaultConfig O, mergeConfig_eq defaultConfig O hO rfl rfl, ?_⟩
  simp only [defaultFieldPaths, List.mem_append] at hp
  rcases hp with (hp | hp) | hp
  · simp only [fieldPaths1, List.mem_map, keysOf_defaultConfig] at hp
    obtain ⟨s, hs, rfl⟩ := hp
    exact default_top_level O s hs hnot
  · simp only [fieldPaths2, List.mem_flatMap, List.mem_map, keysOf_defaultConfig] at hp
    obtain ⟨s, hs, k, hk, rfl⟩ := hp
    exact default_section_field O s k hs hk hnot
  · simp only [fieldPaths3, List.mem_flatMap, List.mem_map] at hp
    obtain ⟨ab, hab, k, hk, rfl⟩ := hp
    exact default_sub_field O ab.1 ab.2 k hab hk hnot

/-- Witness of C1: the override of the product page sets `brand.name` and
`brand.tagline` only, and `brand.logoType` keeps its default value. -/
theorem mergeConfig_keeps_defaults_witness :
    ∃ M, mergeConfig defaultConfig productPageConfig = .ok M ∧
      ∃ v, ownPath defaultConfig ["brand", "logoType"] = some v ∧
        ownPath M ["brand", "logoType"] = some v :=
  mergeConfig_keeps_defaults productPageConfig rfl ["brand", "logoType"] (by decide) rfl

end LandingConfig
